import Mathlib

/-!
Verification of the GoXLR driver core (USB command framer and profile codec)
against its natural-language specification.

The definitions below are a shallow embedding of the Rust sources:

* `src/profile/src/components/reverb.rs` — the reverb encoder, its setters,
  the style preset table and the preset XML parser;
* `src/profile/src/profile.rs` — the profile load dispatch loop and the
  monitor-output save dance in `ProfileSettings::write_to`;
* `src/usb/src/goxlr.rs` — the legacy framer `GoXLR::request_data` and the
  firmware-version decoder;
* `src/usb/src/device/usb.rs` — the framer `GoXLRUSB::perform_request`.

Machine integers are embedded as `Nat`/`Int` with explicit range handling
where the Rust code relies on it; fallible code returns `Except`.  Rust
methods taking `&mut self` and returning `Result<()>` are embedded as
functions returning `Except String Unit × State`: the second component is
the (possibly partially) mutated receiver, so that "the field is unchanged
on error" is expressible.
-/

namespace GoXLR

/-! ## Reverb encoder (src/profile/src/components/reverb.rs) -/

/-- The six reverb styles (`enum ReverbStyle`). -/
inductive ReverbStyle where
  | Library
  | DarkBloom
  | MusicClub
  | RealPlate
  | Chapel
  | HockeyArena
deriving DecidableEq, Repr

/-- The `uiIndex` strum property of each style, used when parsing the
`REVERB_STYLE` attribute. -/
def ReverbStyle.uiIndex : ReverbStyle → String
  | .Library => "0"
  | .DarkBloom => "1"
  | .MusicClub => "2"
  | .RealPlate => "3"
  | .Chapel => "4"
  | .HockeyArena => "5"

/-- Iteration order of `ReverbStyle::iter()`. -/
def ReverbStyle.all : List ReverbStyle :=
  [.Library, .DarkBloom, .MusicClub, .RealPlate, .Chapel, .HockeyArena]

/-- `struct ReverbEncoder`: one reverb preset.  Rust `i8` fields are carried
as `Int`, `u8`/`u16` fields as `Nat`. -/
structure ReverbEncoder where
  knob_position : Int
  style : ReverbStyle
  reverb_type : Nat
  decay : Nat
  pre_delay : Nat
  diffuse : Int
  low_color : Int
  high_color : Int
  high_factor : Int
  mod_speed : Int
  mod_depth : Int
  early_level : Int
  tail_level : Int
  dry_level : Int
deriving DecidableEq, Repr

/-- `ReverbEncoder::new()`: all parameters zero, style `Library`. -/
def ReverbEncoder.new : ReverbEncoder :=
  { knob_position := 0
    style := .Library
    reverb_type := 0
    decay := 0
    pre_delay := 0
    diffuse := 0
    low_color := 0
    high_color := 0
    high_factor := 0
    mod_speed := 0
    mod_depth := 0
    early_level := 0
    tail_level := 0
    dry_level := 0 }

/-- `set_knob_position`: rejects values outside `0..=24`. -/
def ReverbEncoder.set_knob_position (e : ReverbEncoder) (knob_position : Int) :
    Except String Unit × ReverbEncoder :=
  if knob_position < 0 ∨ 24 < knob_position then
    (Except.error "Reverb Knob Position should be between 0 and 24", e)
  else
    (Except.ok (), { e with knob_position := knob_position })

/-- `set_reverb_type`: unchecked store (private setter). -/
def ReverbEncoder.set_reverb_type (e : ReverbEncoder) (value : Nat) : ReverbEncoder :=
  { e with reverb_type := value }

/-- `set_decay`: unchecked store (private setter). -/
def ReverbEncoder.set_decay (e : ReverbEncoder) (value : Nat) : ReverbEncoder :=
  { e with decay := value }

/-- `set_predelay`: the value is a `u8`; values above 100 are rejected. -/
def ReverbEncoder.set_predelay (e : ReverbEncoder) (value : Nat) :
    Except String Unit × ReverbEncoder :=
  if 100 < value then
    (Except.error "Predelay must be between 0 and 100ms", e)
  else
    (Except.ok (), { e with pre_delay := value })

/-- `set_diffuse`: rejects values outside `-50..=50`. -/
def ReverbEncoder.set_diffuse (e : ReverbEncoder) (value : Int) :
    Except String Unit × ReverbEncoder :=
  if value < -50 ∨ 50 < value then
    (Except.error "Diffuse should be between -50 and 50", e)
  else
    (Except.ok (), { e with diffuse := value })

/-- `set_low_color`: rejects values outside `-50..=50`. -/
def ReverbEncoder.set_low_color (e : ReverbEncoder) (value : Int) :
    Except String Unit × ReverbEncoder :=
  if value < -50 ∨ 50 < value then
    (Except.error "LoColour should be between -50 and 50", e)
  else
    (Except.ok (), { e with low_color := value })

/-- `set_hi_color`: rejects values outside `-50..=50`. -/
def ReverbEncoder.set_hi_color (e : ReverbEncoder) (value : Int) :
    Except String Unit × ReverbEncoder :=
  if value < -50 ∨ 50 < value then
    (Except.error "HiColour should be between -50 and 50", e)
  else
    (Except.ok (), { e with high_color := value })

/-- `set_hi_factor`: rejects values outside `-25..=25`. -/
def ReverbEncoder.set_hi_factor (e : ReverbEncoder) (value : Int) :
    Except String Unit × ReverbEncoder :=
  if value < -25 ∨ 25 < value then
    (Except.error "HiFactor should be between -25 and 25", e)
  else
    (Except.ok (), { e with high_factor := value })

/-- `set_mod_speed`: rejects values outside `-25..=25`. -/
def ReverbEncoder.set_mod_speed (e : ReverbEncoder) (value : Int) :
    Except String Unit × ReverbEncoder :=
  if value < -25 ∨ 25 < value then
    (Except.error "Mod Speed should be between -25 and 25", e)
  else
    (Except.ok (), { e with mod_speed := value })

/-- `set_mod_depth`: rejects values outside `-25..=25`. -/
def ReverbEncoder.set_mod_depth (e : ReverbEncoder) (value : Int) :
    Except String Unit × ReverbEncoder :=
  if value < -25 ∨ 25 < value then
    (Except.error "Mod Depth should be between -25 and 25", e)
  else
    (Except.ok (), { e with mod_depth := value })

/-- `set_early_level`: rejects values outside `-25..=0`. -/
def ReverbEncoder.set_early_level (e : ReverbEncoder) (value : Int) :
    Except String Unit × ReverbEncoder :=
  if value < -25 ∨ 0 < value then
    (Except.error "Early Level should be between -25 and 0", e)
  else
    (Except.ok (), { e with early_level := value })

/-- `set_tail_level`: rejects values outside `-25..=0`. -/
def ReverbEncoder.set_tail_level (e : ReverbEncoder) (value : Int) :
    Except String Unit × ReverbEncoder :=
  if value < -25 ∨ 0 < value then
    (Except.error "Tail Level should be between -25 and 0", e)
  else
    (Except.ok (), { e with tail_level := value })

/-- `struct ReverbPreset`: one row of the frozen style table. -/
structure ReverbPreset where
  reverb_type : Nat
  decay : Nat
  pre_delay : Nat
  diffuse : Int
  low_color : Int
  high_color : Int
  high_factor : Int
  mod_speed : Int
  mod_depth : Int
  early_level : Int
  tail_level : Int
deriving DecidableEq, Repr

/-- `ReverbPreset::get_preset`: the frozen table of per-style parameters. -/
def ReverbPreset.get_preset : ReverbStyle → ReverbPreset
  | .Library =>
    { reverb_type := 9, decay := 77, pre_delay := 0, diffuse := 0, low_color := 0
      high_color := -32, high_factor := -6, mod_speed := 0, mod_depth := 0
      early_level := -1, tail_level := 0 }
  | .DarkBloom =>
    { reverb_type := 5, decay := 96, pre_delay := 0, diffuse := -50, low_color := 0
      high_color := -50, high_factor := -25, mod_speed := -25, mod_depth := -25
      early_level := -25, tail_level := 0 }
  | .MusicClub =>
    { reverb_type := 12, decay := 106, pre_delay := 15, diffuse := 0, low_color := 0
      high_color := 0, high_factor := 0, mod_speed := 0, mod_depth := 0
      early_level := 0, tail_level := 0 }
  | .RealPlate =>
    { reverb_type := 9, decay := 115, pre_delay := 15, diffuse := 0, low_color := 21
      high_color := -17, high_factor := -22, mod_speed := -3, mod_depth := 8
      early_level := 0, tail_level := 0 }
  | .Chapel =>
    { reverb_type := 0, decay := 118, pre_delay := 15, diffuse := 0, low_color := -23
      high_color := -35, high_factor := 13, mod_speed := 0, mod_depth := 0
      early_level := -25, tail_level := 0 }
  | .HockeyArena =>
    { reverb_type := 1, decay := 150, pre_delay := 100, diffuse := 0, low_color := 10
      high_color := -39, high_factor := 21, mod_speed := -3, mod_depth := 21
      early_level := 0, tail_level := 0 }

/-- Sequencing of fallible setter calls joined with `?` in Rust: on error the
partially mutated receiver is kept and the error propagates. -/
def seqSet (r : Except String Unit × ReverbEncoder)
    (f : ReverbEncoder → Except String Unit × ReverbEncoder) :
    Except String Unit × ReverbEncoder :=
  match r with
  | (Except.ok _, e) => f e
  | (Except.error m, e) => (Except.error m, e)

/-- `ReverbEncoder::set_style`: records the style, then overwrites all
dependent parameters from the frozen table (each checked setter joined
with `?`). -/
def ReverbEncoder.set_style (e : ReverbEncoder) (style : ReverbStyle) :
    Except String Unit × ReverbEncoder :=
  let e := { e with style := style }
  let preset := ReverbPreset.get_preset style
  let e := e.set_reverb_type preset.reverb_type
  let e := e.set_decay preset.decay
  seqSet (e.set_predelay preset.pre_delay) fun e =>
  seqSet (e.set_diffuse preset.diffuse) fun e =>
  seqSet (e.set_low_color preset.low_color) fun e =>
  seqSet (e.set_hi_color preset.high_color) fun e =>
  seqSet (e.set_hi_factor preset.high_factor) fun e =>
  seqSet (e.set_mod_speed preset.mod_speed) fun e =>
  seqSet (e.set_mod_depth preset.mod_depth) fun e =>
  seqSet (e.set_early_level preset.early_level) fun e =>
  e.set_tail_level preset.tail_level

/-! ## Profile XML parsing (reverb part of src/profile/src/profile.rs and
src/profile/src/components/reverb.rs) -/

/-- An XML attribute (`struct Attribute` in profile.rs): local name and
string value. -/
structure Attribute where
  name : String
  value : String
deriving DecidableEq, Repr

/-- `str::starts_with`, computed on the underlying character list. -/
def strStartsWith (s pre : String) : Bool :=
  pre.toList.isPrefixOf s.toList

/-- Digit-string reading for the numeric attribute parsers. -/
def digitsToNat : List Char → Option Nat
  | [] => none
  | cs => cs.foldl
      (fun acc c => match acc with
        | none => none
        | some n => if c.isDigit then some (n * 10 + (c.toNat - 48)) else none)
      (some 0)

/-- Integer-string parsing (optional leading minus then digits). -/
def strToInt (s : String) : Option Int :=
  match s.toList with
  | '-' :: rest => (digitsToNat rest).map (fun n => -(n : Int))
  | l => (digitsToNat l).map (fun n => (n : Int))

/-- Numeric attribute parsing.  The source parses attribute values with
`parse::<c_float>()` and then casts with `as`; profile files carry integral
values, which parse exactly, so the parse is modelled on integer strings:
a non-numeric value is a parse error. -/
def parseNum (s : String) : Except String Int :=
  match strToInt s with
  | some v => Except.ok v
  | none => Except.error "Expected float"

/-- Rust `as i8` applied to an `f32`: saturating cast into `-128..=127`. -/
def asI8 (v : Int) : Int := max (-128) (min 127 v)

/-- Rust `as u8` applied to an `f32`: saturating cast into `0..=255`. -/
def asU8 (v : Int) : Nat := (max 0 (min 255 v)).toNat

/-- Rust `as u16` applied to an `f32`: saturating cast into `0..=65535`. -/
def asU16 (v : Int) : Nat := (max 0 (min 65535 v)).toNat

/-- One iteration of the attribute loop of
`ReverbEncoderBase::parse_reverb_preset`.  Every parameter except the knob
position is stored as parsed (no range check); only `REVERB_KNOB_POSITION`
goes through the checked setter (joined with `?`).  An unknown `REVERB_STYLE`
value leaves the style unchanged; an unknown attribute is logged and
ignored.  `storeNum` is the shared shape of the unchecked branches:
`preset.field = attr.value.parse::<c_float>()? as …`. -/
def storeNum (a : Attribute) (f : Int → ReverbEncoder) :
    Except String ReverbEncoder :=
  match parseNum a.value with
  | Except.ok v => Except.ok (f v)
  | Except.error m => Except.error m

/-- One iteration of the attribute loop of
`ReverbEncoderBase::parse_reverb_preset` — the if-chain over the attribute
name. -/
def parseReverbAttr (preset : ReverbEncoder) (a : Attribute) :
    Except String ReverbEncoder :=
  if a.name = "REVERB_STYLE" then
    match ReverbStyle.all.find? (fun style => style.uiIndex = a.value) with
    | some style => Except.ok { preset with style := style }
    | none => Except.ok preset
  else if a.name = "REVERB_KNOB_POSITION" then
    match parseNum a.value with
    | Except.error m => Except.error m
    | Except.ok v =>
      match preset.set_knob_position (asI8 v) with
      | (Except.ok _, p) => Except.ok p
      | (Except.error m, _) => Except.error m
  else if a.name = "REVERB_TYPE" then
    storeNum a fun v => { preset with reverb_type := asU8 v }
  else if a.name = "REVERB_DECAY" then
    storeNum a fun v => { preset with decay := asU16 v }
  else if a.name = "REVERB_PREDELAY" then
    storeNum a fun v => { preset with pre_delay := asU8 v }
  else if a.name = "REVERB_DIFFUSE" then
    storeNum a fun v => { preset with diffuse := asI8 v }
  else if a.name = "REVERB_LOCOLOR" then
    storeNum a fun v => { preset with low_color := asI8 v }
  else if a.name = "REVERB_HICOLOR" then
    storeNum a fun v => { preset with high_color := asI8 v }
  else if a.name = "REVERB_HIFACTOR" then
    storeNum a fun v => { preset with high_factor := asI8 v }
  else if a.name = "REVERB_MODSPEED" then
    storeNum a fun v => { preset with mod_speed := asI8 v }
  else if a.name = "REVERB_MODDEPTH" then
    storeNum a fun v => { preset with mod_depth := asI8 v }
  else if a.name = "REVERB_EARLYLEVEL" then
    storeNum a fun v => { preset with early_level := asI8 v }
  else if a.name = "REVERB_TAILLEVEL" then
    storeNum a fun v => { preset with tail_level := asI8 v }
  else if a.name = "REVERB_DRYLEVEL" then
    storeNum a fun v => { preset with dry_level := asI8 v }
  else
    Except.ok preset

/-- The six effect-preset slots (`enum Preset`). -/
inductive Preset where
  | Preset1
  | Preset2
  | Preset3
  | Preset4
  | Preset5
  | Preset6
deriving DecidableEq, Repr

/-- `struct ReverbEncoderBase`: `active_set` plus the map of six presets.
The colour map is kept abstractly as the list of colour attributes the root
parser handed to it (the `ColourMap` component itself is outside the
embedded sources). -/
structure ReverbEncoderBase where
  active_set : Nat
  preset_map : Preset → ReverbEncoder

/-- `ReverbEncoderBase::new`. -/
def ReverbEncoderBase.new : ReverbEncoderBase :=
  { active_set := 0, preset_map := fun _ => ReverbEncoder.new }

/-- `ReverbEncoderBase::parse_reverb_preset`: builds a fresh
`ReverbEncoder::new()`, folds the attributes through `parseReverbAttr`
(any error aborts, as `?` does), then stores the preset in slot `id`
(1-based; the source's `if id == 1 … else if id == 6` chain stores nothing
for other ids). -/
def ReverbEncoderBase.parse_reverb_preset (base : ReverbEncoderBase) (id : Nat)
    (attributes : List Attribute) : Except String ReverbEncoderBase := do
  let preset ← attributes.foldlM parseReverbAttr ReverbEncoder.new
  let store (slot : Preset) : ReverbEncoderBase :=
    { base with preset_map := fun p => if p = slot then preset else base.preset_map p }
  Except.ok <|
    if id = 1 then store .Preset1
    else if id = 2 then store .Preset2
    else if id = 3 then store .Preset3
    else if id = 4 then store .Preset4
    else if id = 5 then store .Preset5
    else if id = 6 then store .Preset6
    else base

/-- `ReverbEncoderBase::parse_reverb_root`: reads `active_set` (parsed as
`u8`, a malformed value is a parse error); all other attributes flow to the
colour map, which is not embedded (its reader accepts the colour attributes
appearing in profiles), so they are ignored here.  One attribute step: -/
def parseActiveSetAttr (acc : Nat) (a : Attribute) : Except String Nat :=
  if a.name = "active_set" then
    match strToInt a.value with
    | some v => if 0 ≤ v ∧ v < 256 then Except.ok v.toNat
                else Except.error "Expected int"
    | none => Except.error "Expected int"
  else Except.ok acc

/-- `ReverbEncoderBase::parse_reverb_root`: fold the attributes, updating
`active_set`; the presets are untouched. -/
def ReverbEncoderBase.parse_reverb_root (base : ReverbEncoderBase)
    (attributes : List Attribute) : Except String ReverbEncoderBase := do
  let act ← attributes.foldlM parseActiveSetAttr base.active_set
  Except.ok { base with active_set := act }

/-- XML reader events, as dispatched by the `ProfileSettings::load` loop. -/
inductive XmlEvent where
  | emptyTag (name : String) (attributes : List Attribute)
  | startTag (name : String) (attributes : List Attribute)
  | endTag
  | eof
deriving Repr

/-- `ProfileSettings::parse_preset`: take the digit that ends the tag name
and map it through `Preset::iter().nth(id - 1)`; anything else (no digit,
or a digit outside 1..=6) is not a preset tag. -/
def parsePresetId (name : String) : Option Nat :=
  match name.toList.getLast? with
  | none => none
  | some c =>
    if c.isDigit then
      let id := c.toNat - 48
      if 1 ≤ id ∧ id ≤ 6 then some id else none
    else none

/-- The reverb-relevant projection of the in-memory `ProfileSettings` tree
produced by `load`.

Modelled from the spec: the root metadata parser (`RootElement`, not under
src/) stores the `version` attribute of `ValueTreeRoot`; the parsers of the
non-reverb components (mixer, routing trees, sampler, the other effect
encoders, …) are also outside the embedded sources and do not touch the
reverb tree, so this model carries only the version gate and the reverb
encoder. -/
structure LoadedProfile where
  version : Int
  reverb_encoder : ReverbEncoderBase

/-- Initial state of the `load` loop. -/
def LoadedProfile.new : LoadedProfile :=
  { version := 0, reverb_encoder := ReverbEncoderBase.new }

/-- Modelled from the spec: `RootElement::parse_root` (root.rs is not under
src/) reads the `version` attribute of the root tag. -/
def parseRootVersion (attributes : List Attribute) (dflt : Int) :
    Except String Int :=
  attributes.foldlM
    (fun acc a =>
      if a.name = "version" then
        match strToInt a.value with
        | some v => Except.ok v
        | none => Except.error "Expected int"
      else Except.ok acc)
    dflt

/-- One iteration of the `ProfileSettings::load` event loop, restricted to
the tags that reach the reverb encoder.  All other tags are handled by
component parsers outside the embedded sources and leave the reverb tree
untouched. -/
def loadStep (st : LoadedProfile) (ev : XmlEvent) : Except String LoadedProfile :=
  match ev with
  | .emptyTag name attributes =>
    if strStartsWith name "reverbEncoderpreset" then
      match parsePresetId name with
      | some id => do
        let rev ← st.reverb_encoder.parse_reverb_preset id attributes
        Except.ok { st with reverb_encoder := rev }
      | none => Except.ok st
    else Except.ok st
  | .startTag name attributes =>
    if name = "ValueTreeRoot" then do
      let version ← parseRootVersion attributes st.version
      if 3 < version then Except.error "Unsupported Profile Version"
      else Except.ok { st with version := version }
    else if name = "reverbEncoder" then do
      let rev ← st.reverb_encoder.parse_reverb_root attributes
      Except.ok { st with reverb_encoder := rev }
    else Except.ok st
  | .endTag => Except.ok st
  | .eof => Except.ok st

/-- The `ProfileSettings::load` loop: fold the events, stopping at `Eof`. -/
def loadGo : List XmlEvent → LoadedProfile → Except String LoadedProfile
  | [], st => Except.ok st
  | .eof :: _, st => Except.ok st
  | ev :: rest, st => do loadGo rest (← loadStep st ev)

/-- `ProfileSettings::load` (reverb projection): run the event loop from the
freshly initialised structure. -/
def loadProfile (events : List XmlEvent) : Except String LoadedProfile :=
  loadGo events LoadedProfile.new

/-- String containment: `needle` occurs inside `hay`. -/
def strContains (hay needle : String) : Prop :=
  ∃ pre post, hay = pre ++ needle ++ post

/-! ## Profile writer: the monitor-output save dance
(`ProfileSettings::write_to`, src/profile/src/profile.rs lines 614-717)

The mixer table and monitor tree (`Mixers`, `MonitorTree` in mixer.rs and
submix/monitor_tree.rs) are not among the embedded sources, so their shape
is modelled from the spec; `write_to` itself is embedded from profile.rs. -/

/-- Modelled from the spec: the output channels of the routing table
(`OutputChannels` in mixer.rs, not under src/). -/
inductive OutputChannels where
  | Headphones
  | BroadcastMix
  | LineOut
  | ChatMic
  | Sampler
deriving DecidableEq, Repr

/-- Modelled from the spec: the input channels of the routing table
(`InputChannels` in mixer.rs, not under src/). -/
inductive InputChannels where
  | Microphone
  | Chat
  | Music
  | Game
  | Console
  | LineIn
  | System
  | Samples
deriving DecidableEq, Repr

/-- Modelled from the spec: the two output mixes (`Mix` in
submix/mix_routing_tree.rs, not under src/). -/
inductive Mix where
  | A
  | B
deriving DecidableEq, Repr

/-- Modelled from the spec: the monitor tree (submix/monitor_tree.rs, not
under src/) — the currently monitored output, the headphone mix, and the
snapshot of the headphone routing column (one `u16` per input channel). -/
structure MonitorTree where
  monitored_output : OutputChannels
  headphone_mix : Mix
  routing : InputChannels → Nat

/-- Modelled from the spec: the 2D routing table
`InputChannel × OutputChannel → u16` (`Mixers` in mixer.rs, not under
src/). -/
structure Mixers where
  mixer_table : InputChannels → OutputChannels → Nat

/-- The slice of `ProfileSettings` that the monitor-output save dance reads
and mutates. -/
structure ProfileMonitorState where
  submix_monitor : MonitorTree
  mixer : Mixers

/-- One emitted XML component, abstracted to the data the claims are about:
the `monitorTree` element carries the monitor fields, the `mixerTree`
element carries the routing table, and every other component is opaque. -/
inductive XmlPart where
  | monitorPart (monitored_output : OutputChannels) (headphone_mix : Mix)
  | mixerPart (table : InputChannels → OutputChannels → Nat)
  | otherPart (tag : String)

/-- The fixed component-write sequence of `write_to` (root, browser,
animation, mix routing, submixer — whose writer emits the `monitorTree` —
mixer, context, mute chat, per-slot elements, effects, encoders, sampler,
simple elements, root close), each snapshotting the state at write time.
The writers of the individual components are not under src/; which data
each emits is modelled from the spec, keeping the order of `write_to`. -/
def emitParts (p : ProfileMonitorState) : List XmlPart :=
  [ .otherPart "ValueTreeRoot",
    .otherPart "browserPreviewTree",
    .otherPart "animationTree",
    .otherPart "mixRoutingTree",
    .monitorPart p.submix_monitor.monitored_output p.submix_monitor.headphone_mix,
    .mixerPart p.mixer.mixer_table,
    .otherPart "selectedContext",
    .otherPart "muteChat",
    .otherPart "muteButtons",
    .otherPart "faders",
    .otherPart "effects",
    .otherPart "scribbles",
    .otherPart "encoders",
    .otherPart "sampler",
    .otherPart "simpleElements",
    .otherPart "rootClose" ]

/-- The mutation block at the start of `write_to` (profile.rs lines
622-637): if the monitored output is not Headphones, overwrite the
Headphones column of the mixer table with the monitor tree's headphone
routing snapshot, and rewrite the monitor fields to Headphones with
Mix A. -/
def writeToSwap (p : ProfileMonitorState) : ProfileMonitorState :=
  if p.submix_monitor.monitored_output ≠ OutputChannels.Headphones then
    { p with
      mixer := ⟨fun input out =>
        if out = OutputChannels.Headphones then p.submix_monitor.routing input
        else p.mixer.mixer_table input out⟩,
      submix_monitor := { p.submix_monitor with
        monitored_output := OutputChannels.Headphones,
        headphone_mix := Mix.A } }
  else p

/-- The restore block at the end of `write_to` (profile.rs lines 702-714):
if the captured monitored output was not Headphones, set every input's
Headphones entry to that input's entry for the monitored output, and put
the captured monitored output and headphone mix back. -/
def writeToRestore (monitored_output : OutputChannels) (headphone_mix : Mix)
    (p : ProfileMonitorState) : ProfileMonitorState :=
  if monitored_output ≠ OutputChannels.Headphones then
    { p with
      mixer := ⟨fun input out =>
        if out = OutputChannels.Headphones then p.mixer.mixer_table input monitored_output
        else p.mixer.mixer_table input out⟩,
      submix_monitor := { p.submix_monitor with
        monitored_output := monitored_output,
        headphone_mix := headphone_mix } }
  else p

/-- `ProfileSettings::write_to`.  `failAt = some k` injects a sink failure
at the k-th component write (each write is joined with `?`, so the error
returns immediately); `failAt = none`, or `k` past the end of the write
sequence, is a fully successful write.

The function mirrors the source exactly: capture `monitored_output`, the
monitor-tree routing snapshot and the headphone mix; if the monitored
output is not Headphones, overwrite the Headphones column of the mixer
table with the snapshot and rewrite the monitor fields to Headphones/Mix A;
emit the components in order; then — only after all writes succeeded —
rebuild the Headphones column from the monitored output's column and
restore the monitor fields. -/
def writeTo (p : ProfileMonitorState) (failAt : Option Nat) :
    Except Unit (List XmlPart) × ProfileMonitorState :=
  let monitored_output := p.submix_monitor.monitored_output
  let headphone_mix := p.submix_monitor.headphone_mix
  let p := writeToSwap p
  let steps := emitParts p
  match failAt with
  | some k =>
    if k < steps.length then
      -- the k-th write fails; `?` returns before the restore code runs
      (Except.error (), p)
    else
      (Except.ok steps, writeToRestore monitored_output headphone_mix p)
  | none => (Except.ok steps, writeToRestore monitored_output headphone_mix p)

/-- Did `write_to` succeed? -/
def writeOk (r : Except Unit (List XmlPart) × ProfileMonitorState) : Bool :=
  match r.1 with
  | Except.ok _ => true
  | Except.error _ => false

/-- The component list a successful `write_to` emitted (empty on error:
the partially written sink is discarded with the temporary file). -/
def emitted (r : Except Unit (List XmlPart) × ProfileMonitorState) : List XmlPart :=
  match r.1 with
  | Except.ok parts => parts
  | Except.error _ => []

/-! ## Firmware version decoding (`GoXLR::get_firmware_version`,
src/usb/src/goxlr.rs lines 266-298) -/

/-- `VersionNumber(a, b, c, d)` from goxlr-types. -/
structure VersionNumber where
  v0 : Nat
  v1 : Nat
  v2 : Nat
  v3 : Nat
deriving DecidableEq, Repr

/-- `FirmwareVersions { firmware, fpga_count, dice }`. -/
structure FirmwareVersions where
  firmware : VersionNumber
  fpga_count : Nat
  dice : VersionNumber
deriving DecidableEq, Repr

/-- `Cursor::read_u32::<LittleEndian>`: consume four bytes, little endian;
fails (UnexpectedEof) if fewer than four bytes remain. -/
def read_u32_le : List Nat → Option (Nat × List Nat)
  | b0 :: b1 :: b2 :: b3 :: rest =>
    some (b0 + 256 * b1 + 65536 * b2 + 16777216 * b3, rest)
  | _ => none

/-- The body decode of `GoXLR::get_firmware_version`: seven little-endian
u32 reads; the packed firmware word splits as `(packed >> 12,
(packed >> 8) & 0xF, packed & 0xFF)`, the packed dice word as
`((packed >> 20) & 0xF, (packed >> 12) & 0xFF, packed & 0xFFF)`. -/
def get_firmware_version (body : List Nat) : Option FirmwareVersions := do
  let (firmware_packed, rest) ← read_u32_le body
  let (firmware_build, rest) ← read_u32_le rest
  let firmware : VersionNumber :=
    { v0 := firmware_packed >>> 12
      v1 := (firmware_packed >>> 8) &&& 0xF
      v2 := firmware_packed &&& 0xFF
      v3 := firmware_build }
  let (_unknown, rest) ← read_u32_le rest
  let (fpga_count, rest) ← read_u32_le rest
  let (dice_build, rest) ← read_u32_le rest
  let (dice_packed, _rest) ← read_u32_le rest
  let dice : VersionNumber :=
    { v0 := (dice_packed >>> 20) &&& 0xF
      v1 := (dice_packed >>> 12) &&& 0xFF
      v2 := dice_packed &&& 0xFFF
      v3 := dice_build }
  some { firmware := firmware, fpga_count := fpga_count, dice := dice }

/-- Little-endian byte splitting of a u32 value. -/
def u32Bytes (n : Nat) : List Nat :=
  [n % 256, n / 256 % 256, n / 65536 % 256, n / 16777216 % 256]

/-! ## The USB command framers

* `performRequest` embeds `GoXLRUSB::perform_request`
  (src/usb/src/device/usb.rs lines 195-285);
* `requestDataG` embeds the legacy `GoXLR::request_data`
  (src/usb/src/goxlr.rs lines 219-250).

The transport is an oracle: the state carries the future results of
`read_control(3, 0, 0, 1040)` in order, and accumulates the frames passed
to `write_control(2, 0, 0, frame)` and the sleeps performed.  Control
writes are modelled as succeeding (a failing `write_control` propagates its
error identically through `?` in both framers and no claim turns on it).
Interrupt reads (`await_interrupt`, result ignored) are not modelled. -/

/-- The `rusb::Error` variants the framers distinguish, plus enough others
to express "any error other than Pipe". -/
inductive RusbError where
  | Pipe
  | Timeout
  | Other
  | NoDevice
  | Busy
deriving DecidableEq, Repr

/-- One result of `read_control`. -/
inductive ReadResult where
  | bytes (data : List Nat)
  | err (e : RusbError)
deriving DecidableEq, Repr

/-- A frame passed to `write_control(2, 0, 0, _)`: the decoded 16-byte
header (command id, body length as u16, command index) plus the body. -/
structure Frame where
  cmdId : Nat
  bodyLen : Nat
  cmdIndex : Nat
  body : List Nat
deriving DecidableEq, Repr

/-- Device/framer state: the `command_count: u16` (kept in `0..=65535` by
the code paths), the product id (`0x8fe4` mini, `0x8fe0` full — selects the
wait), the pending read results, and the observable write/sleep traces. -/
structure UsbState where
  counter : Nat
  pid : Nat
  reads : List ReadResult
  writes : List Frame
  sleeps : List Nat
deriving Repr

/-- Modelled from the spec: the command catalogue (`Command::command_id` in
commands.rs, not under src/).  `ResetCommandIndex` is id 0; every other
variant encodes as `(category << 12) | subcommand_or_index` with a nonzero
category, the sub-command or index occupying the low 12 bits. -/
inductive Command where
  | ResetCommandIndex
  | SystemInfo (sub : Nat)
  | GetHardwareInfo (sub : Nat)
  | SetFader (idx : Nat)
  | SetChannelVolume (idx : Nat)
  | SetChannelState (idx : Nat)
  | SetEncoderValue (idx : Nat)
  | SetRouting (idx : Nat)
  | SetButtonStates
  | SetColourMap
  | SetScribble (idx : Nat)
  | SetFaderDisplayMode (idx : Nat)
  | SetEffectParameters
  | SetMicrophoneParameters
  | GetMicrophoneLevel
  | GetButtonStates
deriving DecidableEq, Repr

/-- Modelled from the spec: `Command::command_id()`,
`(category << 12) | sub` with the sub-command in the low 12 bits. -/
def Command.command_id : Command → Nat
  | .ResetCommandIndex => 0
  | .SystemInfo sub => 1 * 4096 + sub % 4096
  | .GetHardwareInfo sub => 2 * 4096 + sub % 4096
  | .SetFader idx => 3 * 4096 + idx % 4096
  | .SetChannelVolume idx => 4 * 4096 + idx % 4096
  | .SetChannelState idx => 5 * 4096 + idx % 4096
  | .SetEncoderValue idx => 6 * 4096 + idx % 4096
  | .SetRouting idx => 7 * 4096 + idx % 4096
  | .SetButtonStates => 8 * 4096
  | .SetColourMap => 9 * 4096
  | .SetScribble idx => 10 * 4096 + idx % 4096
  | .SetFaderDisplayMode idx => 11 * 4096 + idx % 4096
  | .SetEffectParameters => 12 * 4096
  | .SetMicrophoneParameters => 13 * 4096
  | .GetMicrophoneLevel => 14 * 4096
  | .GetButtonStates => 15 * 4096

/-- The PID of the GoXLR Mini. -/
def PID_GOXLR_MINI : Nat := 0x8fe4

/-- The post-write / retry wait: 3 ms for the full device, 10 ms for the
mini. -/
def sleepTime (st : UsbState) : Nat :=
  if st.pid = PID_GOXLR_MINI then 10 else 3

/-- Pop the next `read_control(3, 0, 0, 1040)` result; with the oracle
exhausted the device is gone. -/
def popRead (st : UsbState) : ReadResult × UsbState :=
  match st.reads with
  | [] => (.err .NoDevice, st)
  | r :: rest => (r, { st with reads := rest })

/-- Record a frame written with `write_control(2, 0, 0, full_request)`. -/
def pushWrite (f : Frame) (st : UsbState) : UsbState :=
  { st with writes := st.writes ++ [f] }

/-- Record a `sleep`. -/
def pushSleep (ms : Nat) (st : UsbState) : UsbState :=
  { st with sleeps := st.sleeps ++ [ms] }

/-- Building `full_request`: command id as LE u32, `body.len() as u16`,
the command index, 8 reserved zero bytes, then the body. -/
def buildFrame (cmd : Command) (body : List Nat) (cmdIndex : Nat) : Frame :=
  { cmdId := cmd.command_id
    bodyLen := body.length % 65536
    cmdIndex := cmdIndex
    body := body }

/-- `LittleEndian::read_u16(&header[i..i+2])` on a byte list. -/
def readU16At (bs : List Nat) (i : Nat) : Nat :=
  bs.getD i 0 + 256 * bs.getD (i + 1) 0

/-- The response-poll loop of `perform_request` (`for i in 0..20`), with
`self` the recursive entry point used by the resynchronisation branch.
The argument counts the remaining iterations (20 at entry).

On `Err(Pipe)` the source checks `if i < 20` — always true for
`i in 0..20` — so it sleeps and retries on every iteration including the
last; the `return Err` branch guarded by the `else` is unreachable, and
exhausting the loop falls through to `Ok(response)` with `response` still
the initial empty vector.  Any other read error returns immediately.  A
frame shorter than 16 bytes fails with `Pipe`.  A response command index
different from the request's resynchronises (when `retry` is not yet set)
by issuing `ResetCommandIndex` with `retry = true` and then retrying the
original command once, or fails with `Other` (when `retry` is set). -/
def readLoopF
    (self : Command → List Nat → Bool → UsbState → Except RusbError (List Nat) × UsbState)
    (cmd : Command) (body : List Nat) (retry : Bool) (command_index : Nat) :
    Nat → UsbState → Except RusbError (List Nat) × UsbState
  | 0, st => (Except.ok [], st)
  | n + 1, st =>
    let (r, st) := popRead st
    match r with
    | .err .Pipe =>
      readLoopF self cmd body retry command_index n (pushSleep (sleepTime st) st)
    | .err e => (Except.error e, st)
    | .bytes data =>
      if data.length < 16 then (Except.error .Pipe, st)
      else
        let response := data.drop 16
        let response_command_index := readU16At data 6
        if response_command_index ≠ command_index then
          if !retry then
            match self .ResetCommandIndex [] true st with
            | (Except.error e, st) => (Except.error e, st)
            | (Except.ok _, st) => self cmd body true st
          else (Except.error .Other, st)
        else (Except.ok response, st)

/-- `GoXLRUSB::perform_request`, fuelled form.  The fuel only bounds the
nesting of recursive `perform_request` activations (the u16::MAX reset and
the resynchronisation retry); the real nesting never exceeds three, so any
fuel ≥ 4 computes the function (see `performRequest`).

Counter step: a `ResetCommandIndex` zeroes `command_count`; any other
command first issues a `ResetCommandIndex` through `request_data` (retry
flag clear) when the counter is at `u16::MAX`, then increments the counter.
The frame is then built and written, the per-model wait slept, and the
response polled by `readLoopF`. -/
def performRequestF :
    Nat → Command → List Nat → Bool → UsbState → Except RusbError (List Nat) × UsbState
  | 0, _, _, _, st => (Except.error .Other, st)
  | fuel + 1, cmd, body, retry, st =>
    let pre : Except RusbError Unit × UsbState :=
      if cmd = .ResetCommandIndex then (Except.ok (), { st with counter := 0 })
      else if st.counter = 65535 then
        match performRequestF fuel .ResetCommandIndex [] false st with
        | (Except.error e, st) => (Except.error e, st)
        | (Except.ok _, st) => (Except.ok (), { st with counter := st.counter + 1 })
      else (Except.ok (), { st with counter := st.counter + 1 })
    match pre with
    | (Except.error e, st) => (Except.error e, st)
    | (Except.ok _, st) =>
      let command_index := st.counter
      let st := pushWrite (buildFrame cmd body command_index) st
      let st := pushSleep (sleepTime st) st
      readLoopF (fun c b r s => performRequestF fuel c b r s) cmd body retry command_index 20 st

/-- `GoXLRUSB::perform_request` with enough fuel for every reachable
recursion (nesting depth is at most three: command → u16::MAX reset →
its resynchronisation, or command → resync reset / retried command). -/
def performRequest (cmd : Command) (body : List Nat) (retry : Bool) (st : UsbState) :
    Except RusbError (List Nat) × UsbState :=
  performRequestF 5 cmd body retry st

/-- Modelled from the spec: `request_data` (the device trait's entry point
in device/base.rs, not under src/) issues the command through
`perform_request` with the retry flag clear. -/
def requestData (cmd : Command) (body : List Nat) (st : UsbState) :
    Except RusbError (List Nat) × UsbState :=
  performRequest cmd body false st

/-- Outcome of the legacy framer: a normal result, a USB error, or a panic
(the legacy code calls `split_off(16)` on the raw buffer, which panics when
fewer than 16 bytes arrived). -/
inductive GOutcome where
  | ok (body : List Nat)
  | err (e : RusbError)
  | panicked
deriving DecidableEq, Repr

/-- Legacy `GoXLR::request_data` (src/usb/src/goxlr.rs lines 219-250),
fuelled form (nesting depth is at most two).

Counter step: a `ResetCommandIndex` zeroes `command_count`; for any other
command, when the counter is BELOW `u16::MAX` (the source tests
`command_count < u16::MAX`) it first issues a `ResetCommandIndex`, then
increments.  When the counter equals `u16::MAX` no reset is issued and the
u16 increment wraps to 0 (release semantics; a debug build would panic on
the overflow).  The frame is then written, a fixed 10 ms slept, the
interrupt await's ignored result skipped, and a single `read_control`
performed: any error is returned as is, a short buffer panics in
`split_off(16)`, and otherwise the body after the 16-byte header is
returned — the `debug_assert!`s on the response length and command index
are no-ops in release builds. -/
def requestDataGF : Nat → Command → List Nat → UsbState → GOutcome × UsbState
  | 0, _, _, st => (.err .Other, st)
  | fuel + 1, cmd, body, st =>
    let pre : GOutcome × UsbState :=
      if cmd = .ResetCommandIndex then (.ok [], { st with counter := 0 })
      else
        let step : GOutcome × UsbState :=
          if st.counter < 65535 then requestDataGF fuel .ResetCommandIndex [] st
          else (.ok [], st)
        match step with
        | (.ok _, st) => (.ok [], { st with counter := (st.counter + 1) % 65536 })
        | (out, st) => (out, st)
    match pre with
    | (.ok _, st) =>
      let command_index := st.counter
      let st := pushWrite (buildFrame cmd body command_index) st
      let st := pushSleep 10 st
      let (r, st) := popRead st
      match r with
      | .err e => (.err e, st)
      | .bytes data =>
        if data.length < 16 then (.panicked, st)
        else (.ok (data.drop 16), st)
    | (out, st) => (out, st)

/-- Legacy `GoXLR::request_data` with enough fuel for every reachable
recursion. -/
def requestDataG (cmd : Command) (body : List Nat) (st : UsbState) :
    GOutcome × UsbState :=
  requestDataGF 3 cmd body st

/-- View of the modern framer's result in the legacy outcome type, for
comparing the two framers. -/
def toGOutcome : Except RusbError (List Nat) → GOutcome
  | Except.ok b => .ok b
  | Except.error e => .err e

/-!
## Theorems

Helper lemmas first (equation lemmas stated by hand where Lean's generated
equations are unwieldy, monotonicity and invariant lemmas), then one theorem
per specification claim.
-/

theorem exceptOkBind {ε α β : Type} (q : α) (f : α → Except ε β) :
    (Except.ok q >>= f) = f q := rfl

theorem exceptErrBind {ε α β : Type} (m : ε) (f : α → Except ε β) :
    ((Except.error m : Except ε α) >>= f) = Except.error m := rfl

/-- **C6**: Every reverb effect-preset setter rejects an input outside its
documented range by returning an error (for `set_predelay` the message
contains "between 0 and 100") while leaving the stored fields unchanged
(the returned receiver is the original), and stores the value and succeeds
on an in-range input.  Ranges: predelay ≤ 100 (`u8` argument), diffuse /
low colour / high colour in `-50..=50`, high factor / mod speed / mod depth
in `-25..=25`, early and tail level in `-25..=0`, knob position in
`0..=24`. -/
theorem reverb_setters_range_checked :
    (∀ (e : ReverbEncoder) (v : Nat), 100 < v →
      e.set_predelay v = (Except.error "Predelay must be between 0 and 100ms", e)) ∧
    strContains "Predelay must be between 0 and 100ms" "between 0 and 100" ∧
    (∀ (e : ReverbEncoder) (v : Nat), v ≤ 100 →
      e.set_predelay v = (Except.ok (), { e with pre_delay := v })) ∧
    (∀ (e : ReverbEncoder) (v : Int), v < -50 ∨ 50 < v →
      e.set_diffuse v = (Except.error "Diffuse should be between -50 and 50", e)) ∧
    (∀ (e : ReverbEncoder) (v : Int), -50 ≤ v → v ≤ 50 →
      e.set_diffuse v = (Except.ok (), { e with diffuse := v })) ∧
    (∀ (e : ReverbEncoder) (v : Int), v < -50 ∨ 50 < v →
      e.set_low_color v = (Except.error "LoColour should be between -50 and 50", e)) ∧
    (∀ (e : ReverbEncoder) (v : Int), -50 ≤ v → v ≤ 50 →
      e.set_low_color v = (Except.ok (), { e with low_color := v })) ∧
    (∀ (e : ReverbEncoder) (v : Int), v < -50 ∨ 50 < v →
      e.set_hi_color v = (Except.error "HiColour should be between -50 and 50", e)) ∧
    (∀ (e : ReverbEncoder) (v : Int), -50 ≤ v → v ≤ 50 →
      e.set_hi_color v = (Except.ok (), { e with high_color := v })) ∧
    (∀ (e : ReverbEncoder) (v : Int), v < -25 ∨ 25 < v →
      e.set_hi_factor v = (Except.error "HiFactor should be between -25 and 25", e)) ∧
    (∀ (e : ReverbEncoder) (v : Int), -25 ≤ v → v ≤ 25 →
      e.set_hi_factor v = (Except.ok (), { e with high_factor := v })) ∧
    (∀ (e : ReverbEncoder) (v : Int), v < -25 ∨ 25 < v →
      e.set_mod_speed v = (Except.error "Mod Speed should be between -25 and 25", e)) ∧
    (∀ (e : ReverbEncoder) (v : Int), -25 ≤ v → v ≤ 25 →
      e.set_mod_speed v = (Except.ok (), { e with mod_speed := v })) ∧
    (∀ (e : ReverbEncoder) (v : Int), v < -25 ∨ 25 < v →
      e.set_mod_depth v = (Except.error "Mod Depth should be between -25 and 25", e)) ∧
    (∀ (e : ReverbEncoder) (v : Int), -25 ≤ v → v ≤ 25 →
      e.set_mod_depth v = (Except.ok (), { e with mod_depth := v })) ∧
    (∀ (e : ReverbEncoder) (v : Int), v < -25 ∨ 0 < v →
      e.set_early_level v = (Except.error "Early Level should be between -25 and 0", e)) ∧
    (∀ (e : ReverbEncoder) (v : Int), -25 ≤ v → v ≤ 0 →
      e.set_early_level v = (Except.ok (), { e with early_level := v })) ∧
    (∀ (e : ReverbEncoder) (v : Int), v < -25 ∨ 0 < v →
      e.set_tail_level v = (Except.error "Tail Level should be between -25 and 0", e)) ∧
    (∀ (e : ReverbEncoder) (v : Int), -25 ≤ v → v ≤ 0 →
      e.set_tail_level v = (Except.ok (), { e with tail_level := v })) ∧
    (∀ (e : ReverbEncoder) (v : Int), v < 0 ∨ 24 < v →
      e.set_knob_position v
        = (Except.error "Reverb Knob Position should be between 0 and 24", e)) ∧
    (∀ (e : ReverbEncoder) (v : Int), 0 ≤ v → v ≤ 24 →
      e.set_knob_position v = (Except.ok (), { e with knob_position := v })) := by
  refine ⟨?_, ⟨"Predelay must be ", "ms", rfl⟩, ?_, ?_, ?_, ?_, ?_, ?_, ?_, ?_, ?_,
    ?_, ?_, ?_, ?_, ?_, ?_, ?_, ?_, ?_, ?_⟩
  · intro e v h
    simp [ReverbEncoder.set_predelay, h]
  · intro e v h
    rw [ReverbEncoder.set_predelay, if_neg (by omega)]
  · intro e v h
    simp [ReverbEncoder.set_diffuse, h]
  · intro e v h1 h2
    rw [ReverbEncoder.set_diffuse, if_neg (by omega)]
  · intro e v h
    simp [ReverbEncoder.set_low_color, h]
  · intro e v h1 h2
    rw [ReverbEncoder.set_low_color, if_neg (by omega)]
  · intro e v h
    simp [ReverbEncoder.set_hi_color, h]
  · intro e v h1 h2
    rw [ReverbEncoder.set_hi_color, if_neg (by omega)]
  · intro e v h
    simp [ReverbEncoder.set_hi_factor, h]
  · intro e v h1 h2
    rw [ReverbEncoder.set_hi_factor, if_neg (by omega)]
  · intro e v h
    simp [ReverbEncoder.set_mod_speed, h]
  · intro e v h1 h2
    rw [ReverbEncoder.set_mod_speed, if_neg (by omega)]
  · intro e v h
    simp [ReverbEncoder.set_mod_depth, h]
  · intro e v h1 h2
    rw [ReverbEncoder.set_mod_depth, if_neg (by omega)]
  · intro e v h
    simp [ReverbEncoder.set_early_level, h]
  · intro e v h1 h2
    rw [ReverbEncoder.set_early_level, if_neg (by omega)]
  · intro e v h
    simp [ReverbEncoder.set_tail_level, h]
  · intro e v h1 h2
    rw [ReverbEncoder.set_tail_level, if_neg (by omega)]
  · intro e v h
    simp [ReverbEncoder.set_knob_position, h]
  · intro e v h1 h2
    rw [ReverbEncoder.set_knob_position, if_neg (by omega)]

/-- Witness for C6 at concrete inputs: `set_predelay 150` errors and leaves
the encoder unchanged, `set_diffuse 60` errors, `set_predelay 100`
succeeds, `set_knob_position 25` errors. -/
theorem reverb_setters_range_checked_witness :
    ReverbEncoder.new.set_predelay 150
      = (Except.error "Predelay must be between 0 and 100ms", ReverbEncoder.new) ∧
    ReverbEncoder.new.set_diffuse 60
      = (Except.error "Diffuse should be between -50 and 50", ReverbEncoder.new) ∧
    ReverbEncoder.new.set_predelay 100
      = (Except.ok (), { ReverbEncoder.new with pre_delay := 100 }) ∧
    ReverbEncoder.new.set_knob_position 25
      = (Except.error "Reverb Knob Position should be between 0 and 24",
        ReverbEncoder.new) :=
  ⟨reverb_setters_range_checked.1 ReverbEncoder.new 150 (by decide),
   reverb_setters_range_checked.2.2.2.1 ReverbEncoder.new 60 (by decide),
   reverb_setters_range_checked.2.2.1 ReverbEncoder.new 100 (by decide),
   (reverb_setters_range_checked.2.2.2.2.2.2.2.2.2.2.2.2.2.2.2.2.2.2.2).1
     ReverbEncoder.new 25 (by decide)⟩

/-- **C8**: For every reverb style `s`, `set_style s` succeeds, records the
style, and overwrites the dependent parameters (reverb type, decay,
pre-delay, diffuse, low/high colour, high factor, mod speed/depth, early
and tail level) with the frozen table entry for `s`, while the knob
position (and the dry level) keep their previous values; the table entry
for `RealPlate` is decay 115, pre-delay 15, diffuse 0, low colour 21, high
colour -17, high factor -22, mod speed -3, mod depth 8, early level 0,
tail level 0. -/
theorem set_style_overwrites_from_table :
    (∀ (e : ReverbEncoder) (s : ReverbStyle),
      e.set_style s = (Except.ok (), { e with
        style := s,
        reverb_type := (ReverbPreset.get_preset s).reverb_type,
        decay := (ReverbPreset.get_preset s).decay,
        pre_delay := (ReverbPreset.get_preset s).pre_delay,
        diffuse := (ReverbPreset.get_preset s).diffuse,
        low_color := (ReverbPreset.get_preset s).low_color,
        high_color := (ReverbPreset.get_preset s).high_color,
        high_factor := (ReverbPreset.get_preset s).high_factor,
        mod_speed := (ReverbPreset.get_preset s).mod_speed,
        mod_depth := (ReverbPreset.get_preset s).mod_depth,
        early_level := (ReverbPreset.get_preset s).early_level,
        tail_level := (ReverbPreset.get_preset s).tail_level })) ∧
    ReverbPreset.get_preset .RealPlate =
      { reverb_type := 9, decay := 115, pre_delay := 15, diffuse := 0, low_color := 21,
        high_color := -17, high_factor := -22, mod_speed := -3, mod_depth := 8,
        early_level := 0, tail_level := 0 } := by
  constructor
  · intro e s
    cases s <;> rfl
  · rfl



example (p : ReverbEncoder) (a : Attribute) : True := by
  have h := rfl (a := parseReverbAttr p a)
  trivial

theorem parseReverbAttr_eqn (p : ReverbEncoder) (a : Attribute) :
    parseReverbAttr p a =
  (if a.name = "REVERB_STYLE" then
    match ReverbStyle.all.find? (fun style => style.uiIndex = a.value) with
    | some style => Except.ok { p with style := style }
    | none => Except.ok p
  else if a.name = "REVERB_KNOB_POSITION" then
    match parseNum a.value with
    | Except.error m => Except.error m
    | Except.ok v =>
      match p.set_knob_position (asI8 v) with
      | (Except.ok _, q) => Except.ok q
      | (Except.error m, _) => Except.error m
  else if a.name = "REVERB_TYPE" then
    storeNum a fun v => { p with reverb_type := asU8 v }
  else if a.name = "REVERB_DECAY" then
    storeNum a fun v => { p with decay := asU16 v }
  else if a.name = "REVERB_PREDELAY" then
    storeNum a fun v => { p with pre_delay := asU8 v }
  else if a.name = "REVERB_DIFFUSE" then
    storeNum a fun v => { p with diffuse := asI8 v }
  else if a.name = "REVERB_LOCOLOR" then
    storeNum a fun v => { p with low_color := asI8 v }
  else if a.name = "REVERB_HICOLOR" then
    storeNum a fun v => { p with high_color := asI8 v }
  else if a.name = "REVERB_HIFACTOR" then
    storeNum a fun v => { p with high_factor := asI8 v }
  else if a.name = "REVERB_MODSPEED" then
    storeNum a fun v => { p with mod_speed := asI8 v }
  else if a.name = "REVERB_MODDEPTH" then
    storeNum a fun v => { p with mod_depth := asI8 v }
  else if a.name = "REVERB_EARLYLEVEL" then
    storeNum a fun v => { p with early_level := asI8 v }
  else if a.name = "REVERB_TAILLEVEL" then
    storeNum a fun v => { p with tail_level := asI8 v }
  else if a.name = "REVERB_DRYLEVEL" then
    storeNum a fun v => { p with dry_level := asI8 v }
  else
    Except.ok p) := rfl
theorem storeNum_ok (a : Attribute) (f : Int → ReverbEncoder) (p' : ReverbEncoder)
    (h : storeNum a f = Except.ok p') : ∃ v, p' = f v := by
  unfold storeNum at h
  split at h
  · injection h with e
    exact ⟨_, e.symm⟩
  · exact absurd h (by simp)

theorem parseReverbAttr_knob (p : ReverbEncoder) (a : Attribute) (p' : ReverbEncoder)
    (h : parseReverbAttr p a = Except.ok p')
    (hp : 0 ≤ p.knob_position ∧ p.knob_position ≤ 24) :
    0 ≤ p'.knob_position ∧ p'.knob_position ≤ 24 := by
  rw [parseReverbAttr_eqn] at h
  by_cases h1 : a.name = "REVERB_STYLE"
  · rw [if_pos h1] at h
    split at h <;> (injection h with e; subst e; exact hp)
  · rw [if_neg h1] at h
    by_cases h2 : a.name = "REVERB_KNOB_POSITION"
    · rw [if_pos h2] at h
      split at h
      · exact absurd h (by simp)
      · rename_i v hv
        unfold ReverbEncoder.set_knob_position at h
        split at h
        · rename_i heq
          injection h with e
          subst e
          split at heq
          · rw [Prod.mk.injEq] at heq
            exact absurd heq.1 (by simp)
          · rename_i hrange
            rw [Prod.mk.injEq] at heq
            rw [← heq.2]
            push_neg at hrange
            simpa using hrange
        · exact absurd h (by simp)
    · rw [if_neg h2] at h
      by_cases h3 : a.name = "REVERB_TYPE"
      · rw [if_pos h3] at h
        obtain ⟨v, e⟩ := storeNum_ok _ _ _ h
        subst e
        exact hp
      · rw [if_neg h3] at h
        by_cases h4 : a.name = "REVERB_DECAY"
        · rw [if_pos h4] at h
          obtain ⟨v, e⟩ := storeNum_ok _ _ _ h
          subst e
          exact hp
        · rw [if_neg h4] at h
          by_cases h5 : a.name = "REVERB_PREDELAY"
          · rw [if_pos h5] at h
            obtain ⟨v, e⟩ := storeNum_ok _ _ _ h
            subst e
            exact hp
          · rw [if_neg h5] at h
            by_cases h6 : a.name = "REVERB_DIFFUSE"
            · rw [if_pos h6] at h
              obtain ⟨v, e⟩ := storeNum_ok _ _ _ h
              subst e
              exact hp
            · rw [if_neg h6] at h
              by_cases h7 : a.name = "REVERB_LOCOLOR"
              · rw [if_pos h7] at h
                obtain ⟨v, e⟩ := storeNum_ok _ _ _ h
                subst e
                exact hp
              · rw [if_neg h7] at h
                by_cases h8 : a.name = "REVERB_HICOLOR"
                · rw [if_pos h8] at h
                  obtain ⟨v, e⟩ := storeNum_ok _ _ _ h
                  subst e
                  exact hp
                · rw [if_neg h8] at h
                  by_cases h9 : a.name = "REVERB_HIFACTOR"
                  · rw [if_pos h9] at h
                    obtain ⟨v, e⟩ := storeNum_ok _ _ _ h
                    subst e
                    exact hp
                  · rw [if_neg h9] at h
                    by_cases h10 : a.name = "REVERB_MODSPEED"
                    · rw [if_pos h10] at h
                      obtain ⟨v, e⟩ := storeNum_ok _ _ _ h
                      subst e
                      exact hp
                    · rw [if_neg h10] at h
                      by_cases h11 : a.name = "REVERB_MODDEPTH"
                      · rw [if_pos h11] at h
                        obtain ⟨v, e⟩ := storeNum_ok _ _ _ h
                        subst e
                        exact hp
                      · rw [if_neg h11] at h
                        by_cases h12 : a.name = "REVERB_EARLYLEVEL"
                        · rw [if_pos h12] at h
                          obtain ⟨v, e⟩ := storeNum_ok _ _ _ h
                          subst e
                          exact hp
                        · rw [if_neg h12] at h
                          by_cases h13 : a.name = "REVERB_TAILLEVEL"
                          · rw [if_pos h13] at h
                            obtain ⟨v, e⟩ := storeNum_ok _ _ _ h
                            subst e
                            exact hp
                          · rw [if_neg h13] at h
                            by_cases h14 : a.name = "REVERB_DRYLEVEL"
                            · rw [if_pos h14] at h
                              obtain ⟨v, e⟩ := storeNum_ok _ _ _ h
                              subst e
                              exact hp
                            · rw [if_neg h14] at h
                              injection h with e
                              subst e
                              exact hp
theorem foldlM_parseReverbAttr_knob (l : List Attribute) (p p' : ReverbEncoder)
    (h : l.foldlM parseReverbAttr p = Except.ok p')
    (hp : 0 ≤ p.knob_position ∧ p.knob_position ≤ 24) :
    0 ≤ p'.knob_position ∧ p'.knob_position ≤ 24 := by
  induction l generalizing p with
  | nil =>
    simp only [List.foldlM_nil] at h
    injection h with e
    subst e
    exact hp
  | cons a l ih =>
    rw [List.foldlM_cons] at h
    cases hpa : parseReverbAttr p a with
    | error m =>
      rw [hpa, exceptErrBind] at h
      exact absurd h (by simp)
    | ok q =>
      rw [hpa, exceptOkBind] at h
      exact ih q h (parseReverbAttr_knob p a q hpa hp)

theorem parse_reverb_preset_knob (base : ReverbEncoderBase) (id : Nat)
    (attrs : List Attribute) (base' : ReverbEncoderBase)
    (h : base.parse_reverb_preset id attrs = Except.ok base')
    (hb : ∀ pr, 0 ≤ (base.preset_map pr).knob_position ∧
      (base.preset_map pr).knob_position ≤ 24) :
    ∀ pr, 0 ≤ (base'.preset_map pr).knob_position ∧
      (base'.preset_map pr).knob_position ≤ 24 := by
  unfold ReverbEncoderBase.parse_reverb_preset at h
  cases hf : attrs.foldlM parseReverbAttr ReverbEncoder.new with
  | error m =>
    rw [hf, exceptErrBind] at h
    exact absurd h (by simp)
  | ok preset =>
    rw [hf, exceptOkBind] at h
    have hknob := foldlM_parseReverbAttr_knob attrs ReverbEncoder.new preset hf (by decide)
    injection h with e
    subst e
    intro pr
    split_ifs <;>
      first
      | exact hb pr
      | (simp only [ReverbEncoderBase.preset_map]
         split
         · exact hknob
         · exact hb pr)
theorem parse_reverb_root_presets (base : ReverbEncoderBase) (attrs : List Attribute)
    (base' : ReverbEncoderBase) (h : base.parse_reverb_root attrs = Except.ok base') :
    base'.preset_map = base.preset_map := by
  unfold ReverbEncoderBase.parse_reverb_root at h
  cases hf : attrs.foldlM parseActiveSetAttr base.active_set with
  | error m =>
    rw [hf, exceptErrBind] at h
    exact absurd h (by simp)
  | ok act =>
    rw [hf, exceptOkBind] at h
    injection h with e
    subst e
    rfl

theorem loadStep_emptyTag (st : LoadedProfile) (name : String) (attrs : List Attribute) :
    loadStep st (.emptyTag name attrs) =
      (if strStartsWith name "reverbEncoderpreset" then
        match parsePresetId name with
        | some id => do
          let rev ← st.reverb_encoder.parse_reverb_preset id attrs
          Except.ok { st with reverb_encoder := rev }
        | none => Except.ok st
      else Except.ok st) := rfl

theorem loadStep_startTag (st : LoadedProfile) (name : String) (attrs : List Attribute) :
    loadStep st (.startTag name attrs) =
      (if name = "ValueTreeRoot" then do
        let version ← parseRootVersion attrs st.version
        if 3 < version then Except.error "Unsupported Profile Version"
        else Except.ok { st with version := version }
      else if name = "reverbEncoder" then do
        let rev ← st.reverb_encoder.parse_reverb_root attrs
        Except.ok { st with reverb_encoder := rev }
      else Except.ok st) := rfl

theorem loadStep_knob (st : LoadedProfile) (ev : XmlEvent) (st' : LoadedProfile)
    (h : loadStep st ev = Except.ok st')
    (hb : ∀ pr, 0 ≤ (st.reverb_encoder.preset_map pr).knob_position ∧
      (st.reverb_encoder.preset_map pr).knob_position ≤ 24) :
    ∀ pr, 0 ≤ (st'.reverb_encoder.preset_map pr).knob_position ∧
      (st'.reverb_encoder.preset_map pr).knob_position ≤ 24 := by
  cases ev with
  | endTag =>
    injection h with e
    subst e
    exact hb
  | eof =>
    injection h with e
    subst e
    exact hb
  | emptyTag name attrs =>
    rw [loadStep_emptyTag] at h
    split at h
    · split at h
      · rename_i id hid
        cases hp : st.reverb_encoder.parse_reverb_preset id attrs with
        | error m =>
          rw [hp, exceptErrBind] at h
          exact absurd h (by simp)
        | ok rev =>
          rw [hp, exceptOkBind] at h
          injection h with e
          subst e
          exact parse_reverb_preset_knob _ _ _ _ hp hb
      · injection h with e
        subst e
        exact hb
    · injection h with e
      subst e
      exact hb
  | startTag name attrs =>
    rw [loadStep_startTag] at h
    split_ifs at h
    · cases hv : parseRootVersion attrs st.version with
      | error m =>
        rw [hv, exceptErrBind] at h
        exact absurd h (by simp)
      | ok version =>
        rw [hv, exceptOkBind] at h
        split at h
        · exact absurd h (by simp)
        · injection h with e
          subst e
          exact hb
    · cases hr : st.reverb_encoder.parse_reverb_root attrs with
      | error m =>
        rw [hr, exceptErrBind] at h
        exact absurd h (by simp)
      | ok rev =>
        rw [hr, exceptOkBind] at h
        injection h with e
        subst e
        intro pr
        rw [show rev.preset_map = st.reverb_encoder.preset_map from
          parse_reverb_root_presets _ _ _ hr]
        exact hb pr
    · injection h with e
      subst e
      exact hb

theorem loadGo_knob (events : List XmlEvent) (st : LoadedProfile) (st' : LoadedProfile)
    (h : loadGo events st = Except.ok st')
    (hb : ∀ pr, 0 ≤ (st.reverb_encoder.preset_map pr).knob_position ∧
      (st.reverb_encoder.preset_map pr).knob_position ≤ 24) :
    ∀ pr, 0 ≤ (st'.reverb_encoder.preset_map pr).knob_position ∧
      (st'.reverb_encoder.preset_map pr).knob_position ≤ 24 := by
  induction events generalizing st with
  | nil =>
    unfold loadGo at h
    injection h with e
    subst e
    exact hb
  | cons ev rest ih =>
    cases ev with
    | eof =>
      unfold loadGo at h
      injection h with e
      subst e
      exact hb
    | emptyTag name attrs =>
      unfold loadGo at h
      cases hs : loadStep st (.emptyTag name attrs) with
      | error m => rw [hs, exceptErrBind] at h; exact absurd h (by simp)
      | ok st2 =>
        rw [hs, exceptOkBind] at h
        exact ih st2 h (loadStep_knob _ _ _ hs hb)
    | startTag name attrs =>
      unfold loadGo at h
      cases hs : loadStep st (.startTag name attrs) with
      | error m => rw [hs, exceptErrBind] at h; exact absurd h (by simp)
      | ok st2 =>
        rw [hs, exceptOkBind] at h
        exact ih st2 h (loadStep_knob _ _ _ hs hb)
    | endTag =>
      unfold loadGo at h
      cases hs : loadStep st .endTag with
      | error m => rw [hs, exceptErrBind] at h; exact absurd h (by simp)
      | ok st2 =>
        rw [hs, exceptOkBind] at h
        exact ih st2 h (loadStep_knob _ _ _ hs hb)

/-- Counterexample to **C5**: a profile whose `reverbEncoderpreset1` tag
carries `REVERB_PREDELAY="200"` is accepted by `load` (version 2 passes the
gate, and `parse_reverb_preset` stores the parsed value without a range
check), leaving `pre_delay = 200 > 100` in the in-memory tree. -/
theorem load_accepts_out_of_range_predelay_cex :
    (match loadProfile [ .startTag "ValueTreeRoot" [⟨"version", "2"⟩],
      .emptyTag "reverbEncoderpreset1" [⟨"REVERB_PREDELAY", "200"⟩], .eof ] with
      | Except.ok p => some (p.reverb_encoder.preset_map .Preset1).pre_delay
      | Except.error _ => none) = some 200 ∧ ¬ (200 : Nat) ≤ 100 := by
  constructor
  · decide
  · decide

/-- **C5** (amended): `ProfileSettings::load` enforces a range only for the
knob position — every reverb preset of a successfully loaded profile has
`knob_position` in `0..=24` (enforced through `set_knob_position`); the
remaining numeric reverb parameters (decay, pre-delay, diffuse, colours,
factors, mod speed/depth, levels) are stored as parsed, without range
enforcement. -/
theorem load_reverb_knob_position_in_range (events : List XmlEvent)
    (p : LoadedProfile) (h : loadProfile events = Except.ok p) :
    ∀ pr, 0 ≤ (p.reverb_encoder.preset_map pr).knob_position ∧
      (p.reverb_encoder.preset_map pr).knob_position ≤ 24 :=
  loadGo_knob events LoadedProfile.new p h
    (by intro pr; cases pr <;> exact ⟨by decide, by decide⟩)

/-- Witness for C5's amended theorem at a concrete accepted profile. -/
theorem load_reverb_knob_position_in_range_witness :
    0 ≤ ((LoadedProfile.new).reverb_encoder.preset_map .Preset1).knob_position ∧
    ((LoadedProfile.new).reverb_encoder.preset_map .Preset1).knob_position ≤ 24 :=
  load_reverb_knob_position_in_range [XmlEvent.eof] LoadedProfile.new rfl .Preset1

theorem writeTo_eq (p : ProfileMonitorState) (failAt : Option Nat) :
    writeTo p failAt =
      match failAt with
      | some k =>
        if k < 16 then (Except.error (), writeToSwap p)
        else (Except.ok (emitParts (writeToSwap p)),
          writeToRestore p.submix_monitor.monitored_output
            p.submix_monitor.headphone_mix (writeToSwap p))
      | none => (Except.ok (emitParts (writeToSwap p)),
          writeToRestore p.submix_monitor.monitored_output
            p.submix_monitor.headphone_mix (writeToSwap p)) := by
  cases failAt <;> rfl

theorem writeOk_iff (p : ProfileMonitorState) (failAt : Option Nat) :
    writeOk (writeTo p failAt) = true ↔ (∀ k, failAt = some k → ¬ k < 16) := by
  rw [writeTo_eq]
  cases failAt with
  | none => simp [writeOk]
  | some k =>
    by_cases hk : k < 16
    · simp [writeOk, hk]
    · simp [writeOk, hk]
      omega

/-- Counterexample to **C4**: with `monitored_output = BroadcastMix` and
`headphone_mix = Mix B`, a failure at the first component write makes
`write_to` return before the restore block, so the in-memory monitor
fields remain rewritten (`Headphones` / `Mix A`), different from their
pre-call values — the restore does not run on error exits. -/
theorem write_to_error_leaves_monitor_rewritten_cex :
    (writeTo
        { submix_monitor :=
            { monitored_output := .BroadcastMix,
              headphone_mix := .B,
              routing := fun _ => 7 },
          mixer := ⟨fun _ _ => 5⟩ } (some 0)).1 = Except.error () ∧
    (writeTo
        { submix_monitor :=
            { monitored_output := .BroadcastMix,
              headphone_mix := .B,
              routing := fun _ => 7 },
          mixer := ⟨fun _ _ => 5⟩ } (some 0)).2.submix_monitor.monitored_output
      = OutputChannels.Headphones ∧
    (writeTo
        { submix_monitor :=
            { monitored_output := .BroadcastMix,
              headphone_mix := .B,
              routing := fun _ => 7 },
          mixer := ⟨fun _ _ => 5⟩ } (some 0)).2.submix_monitor.headphone_mix
      = Mix.A ∧
    OutputChannels.Headphones ≠ OutputChannels.BroadcastMix ∧
    Mix.A ≠ Mix.B := by
  refine ⟨rfl, rfl, rfl, by decide, by decide⟩

/-- **C4** (amended): when `write_to` succeeds and the monitored output was
not Headphones, the emitted document carries the monitor fields rewritten
as Headphones with Mix A and the mixer table with its Headphones column
replaced by the monitor snapshot (all other columns as stored); on the
successful exit path the in-memory monitored output and headphone mix are
restored to their pre-call values.  On an error return of a component
write the restore does NOT run: the monitor fields remain Headphones /
Mix A. -/
theorem write_to_monitor_dance :
    (∀ p failAt, writeOk (writeTo p failAt) = true →
      (writeTo p failAt).2.submix_monitor.monitored_output
          = p.submix_monitor.monitored_output ∧
      (writeTo p failAt).2.submix_monitor.headphone_mix
          = p.submix_monitor.headphone_mix) ∧
    (∀ p failAt, writeOk (writeTo p failAt) = true →
      p.submix_monitor.monitored_output ≠ OutputChannels.Headphones →
      (emitted (writeTo p failAt)).get? 4
          = some (.monitorPart OutputChannels.Headphones Mix.A) ∧
      ∃ t, (emitted (writeTo p failAt)).get? 5 = some (.mixerPart t) ∧
        (∀ i, t i OutputChannels.Headphones = p.submix_monitor.routing i) ∧
        (∀ i o, o ≠ OutputChannels.Headphones → t i o = p.mixer.mixer_table i o)) ∧
    (∀ p k, writeOk (writeTo p (some k)) = false →
      p.submix_monitor.monitored_output ≠ OutputChannels.Headphones →
      (writeTo p (some k)).2.submix_monitor.monitored_output
          = OutputChannels.Headphones ∧
      (writeTo p (some k)).2.submix_monitor.headphone_mix = Mix.A) := by
  refine ⟨?_, ?_, ?_⟩
  · intro p failAt h
    have h2 := (writeOk_iff p failAt).mp h
    rw [writeTo_eq]
    by_cases hmo : p.submix_monitor.monitored_output = OutputChannels.Headphones
    · cases failAt with
      | none => simp [writeToRestore, writeToSwap, hmo]
      | some k =>
        have hk := h2 k rfl
        simp [hk, writeToRestore, writeToSwap, hmo]
    · cases failAt with
      | none => simp [writeToRestore, writeToSwap, hmo]
      | some k =>
        have hk := h2 k rfl
        simp [hk, writeToRestore, writeToSwap, hmo]
  · intro p failAt h hmo
    have h2 := (writeOk_iff p failAt).mp h
    rw [writeTo_eq]
    have hparts : ∀ q, q = writeToSwap p →
        (emitted (Except.ok (emitParts q), writeToRestore p.submix_monitor.monitored_output
          p.submix_monitor.headphone_mix q)).get? 4
            = some (.monitorPart OutputChannels.Headphones Mix.A) ∧
        ∃ t, (emitted (Except.ok (emitParts q), writeToRestore p.submix_monitor.monitored_output
            p.submix_monitor.headphone_mix q)).get? 5 = some (.mixerPart t) ∧
          (∀ i, t i OutputChannels.Headphones = p.submix_monitor.routing i) ∧
          (∀ i o, o ≠ OutputChannels.Headphones → t i o = p.mixer.mixer_table i o) := by
      intro q hq
      subst hq
      refine ⟨by simp [emitted, emitParts, writeToSwap, hmo], ?_⟩
      refine ⟨(writeToSwap p).mixer.mixer_table, by simp [emitted, emitParts], ?_, ?_⟩
      · intro i
        simp [writeToSwap, hmo]
      · intro i o ho
        simp [writeToSwap, hmo, ho]
    cases failAt with
    | none => exact hparts _ rfl
    | some k =>
      have hk := h2 k rfl
      simpa [hk] using hparts _ rfl
  · intro p k h hmo
    have hk : k < 16 := by
      by_contra hk
      have ht : writeOk (writeTo p (some k)) = true := by
        refine (writeOk_iff p (some k)).mpr ?_
        intro k2 hk2
        injection hk2 with e
        subst e
        exact hk
      rw [ht] at h
      simp at h
    rw [writeTo_eq]
    simp only [hk, if_true]
    constructor <;> simp [writeToSwap, hmo]

/-- Witness for C4's amended theorem at a concrete profile state. -/
theorem write_to_monitor_dance_witness :
    (writeTo
        { submix_monitor :=
            { monitored_output := .LineOut,
              headphone_mix := .B,
              routing := fun _ => 9 },
          mixer := ⟨fun _ _ => 3⟩ } none).2.submix_monitor.monitored_output
      = OutputChannels.LineOut ∧
    (emitted (writeTo
        { submix_monitor :=
            { monitored_output := .LineOut,
              headphone_mix := .B,
              routing := fun _ => 9 },
          mixer := ⟨fun _ _ => 3⟩ } none)).get? 4
      = some (.monitorPart OutputChannels.Headphones Mix.A) ∧
    (writeTo
        { submix_monitor :=
            { monitored_output := .LineOut,
              headphone_mix := .B,
              routing := fun _ => 9 },
          mixer := ⟨fun _ _ => 3⟩ } (some 2)).2.submix_monitor.monitored_output
      = OutputChannels.Headphones := by
  refine ⟨?_, ?_, ?_⟩
  · exact (write_to_monitor_dance.1 _ none rfl).1.trans rfl
  · exact (write_to_monitor_dance.2.1 _ none rfl (by decide)).1
  · exact (write_to_monitor_dance.2.2 _ 2 rfl (by decide)).1

/-- **C10**: after a successful `write_to` whose monitored output was not
Headphones, every input's Headphones entry in the mixer table equals that
input's entry for the monitored output (the column is rebuilt from the
monitored output's column, not restored from a snapshot of its pre-call
contents), and every entry for an output other than Headphones keeps its
pre-call value. -/
theorem write_to_headphone_column_rebuilt :
    ∀ p failAt, writeOk (writeTo p failAt) = true →
      p.submix_monitor.monitored_output ≠ OutputChannels.Headphones →
      (∀ i, (writeTo p failAt).2.mixer.mixer_table i OutputChannels.Headphones
          = p.mixer.mixer_table i p.submix_monitor.monitored_output) ∧
      (∀ i o, o ≠ OutputChannels.Headphones →
        (writeTo p failAt).2.mixer.mixer_table i o = p.mixer.mixer_table i o) := by
  intro p failAt h hmo
  have h2 := (writeOk_iff p failAt).mp h
  rw [writeTo_eq]
  have core :
      (∀ i, (writeToRestore p.submix_monitor.monitored_output
          p.submix_monitor.headphone_mix (writeToSwap p)).mixer.mixer_table i
            OutputChannels.Headphones
          = p.mixer.mixer_table i p.submix_monitor.monitored_output) ∧
      (∀ i o, o ≠ OutputChannels.Headphones →
        (writeToRestore p.submix_monitor.monitored_output
          p.submix_monitor.headphone_mix (writeToSwap p)).mixer.mixer_table i o
          = p.mixer.mixer_table i o) := by
    constructor
    · intro i
      simp [writeToRestore, writeToSwap, hmo]
    · intro i o ho
      simp [writeToRestore, writeToSwap, hmo, ho]
  cases failAt with
  | none => exact core
  | some k =>
    have hk := h2 k rfl
    simpa [hk] using core

/-- Witness for C10 at a concrete profile state whose table entries are all
distinct. -/
theorem write_to_headphone_column_rebuilt_witness :
    (writeTo
        { submix_monitor :=
            { monitored_output := .BroadcastMix,
              headphone_mix := .B,
              routing := fun _ => 1000 },
          mixer := ⟨fun _ o => if o = OutputChannels.BroadcastMix then 100 else 200⟩ }
        none).2.mixer.mixer_table .Microphone .Headphones = 100 := by
  have h := (write_to_headphone_column_rebuilt
    { submix_monitor :=
        { monitored_output := .BroadcastMix,
          headphone_mix := .B,
          routing := fun _ => 1000 },
      mixer := ⟨fun _ o => if o = OutputChannels.BroadcastMix then 100 else 200⟩ }
    none rfl (by decide)).1 InputChannels.Microphone
  rw [h]
  decide

theorem read_u32_le_bytes (n : Nat) (rest : List Nat) (h : n < 4294967296) :
    read_u32_le (u32Bytes n ++ rest) = some (n, rest) := by
  simp only [u32Bytes, List.cons_append, List.nil_append, read_u32_le]
  congr 1
  congr 1
  omega

/-- Counterexample to **C7**: the decoder reads only six little-endian u32
words — `dice_build` is the FIFTH and `dice_packed` the SIXTH — so on a
body whose fifth, sixth and seventh words are 5, 6 and 9000 the dice
version is `(0, 0, 6, 5)`, not the `((9000>>20)&0xF, (9000>>12)&0xFF,
9000&0xFFF, 6) = (0, 2, 808, 6)` that "sixth (build) and seventh (packed)"
would give. -/
theorem firmware_dice_from_fifth_and_sixth_words_cex :
    get_firmware_version
      (u32Bytes 0x1234 ++ u32Bytes 7 ++ u32Bytes 3 ++ u32Bytes 1
        ++ u32Bytes 5 ++ u32Bytes 6 ++ u32Bytes 9000) =
      some { firmware := ⟨1, 2, 0x34, 7⟩, fpga_count := 1, dice := ⟨0, 0, 6, 5⟩ } ∧
    (⟨0, 0, 6, 5⟩ : VersionNumber) ≠ ⟨0, 2, 808, 6⟩ := by
  constructor
  · decide
  · decide

/-- **C7** (amended): `get_firmware_version` decodes the firmware version
from the first little-endian u32 (packed) and the second (build) as
`VersionNumber(packed >> 12, (packed >> 8) & 0xF, packed & 0xFF, build)`,
and the dice version from the FIFTH u32 (build) and SIXTH u32 (packed) as
`VersionNumber((packed >> 20) & 0xF, (packed >> 12) & 0xFF,
packed & 0xFFF, build)`; a response beginning
`[0x34, 0x12, 0x00, 0x00, 0x07, 0x00, 0x00, 0x00]` decodes the firmware
version as `(0x1, 0x2, 0x34, 7)`. -/
theorem get_firmware_version_decode :
    (∀ (a b c d e f : Nat) (rest : List Nat),
      a < 4294967296 → b < 4294967296 → c < 4294967296 →
      d < 4294967296 → e < 4294967296 → f < 4294967296 →
      get_firmware_version
        (u32Bytes a ++ u32Bytes b ++ u32Bytes c ++ u32Bytes d ++ u32Bytes e
          ++ u32Bytes f ++ rest) =
      some { firmware := ⟨a >>> 12, (a >>> 8) &&& 0xF, a &&& 0xFF, b⟩,
             fpga_count := d,
             dice := ⟨(f >>> 20) &&& 0xF, (f >>> 12) &&& 0xFF, f &&& 0xFFF, e⟩ }) ∧
    (match get_firmware_version ([0x34, 0x12, 0x00, 0x00, 0x07, 0x00, 0x00, 0x00]
        ++ List.replicate 20 0) with
      | some v => some v.firmware
      | none => none) = some ⟨0x1, 0x2, 0x34, 7⟩ := by
  constructor
  · intro a b c d e f rest ha hb hc hd he hf
    simp only [get_firmware_version, List.append_assoc, Option.bind_eq_bind,
      read_u32_le_bytes a _ ha, Option.some_bind]
    simp only [read_u32_le_bytes b _ hb, Option.some_bind,
      read_u32_le_bytes c _ hc, read_u32_le_bytes d _ hd,
      read_u32_le_bytes e _ he, read_u32_le_bytes f _ hf]
  · decide

/-- Witness for C7's amended theorem at concrete words. -/
theorem get_firmware_version_decode_witness :
    get_firmware_version
      (u32Bytes 0x1234 ++ u32Bytes 7 ++ u32Bytes 0 ++ u32Bytes 2
        ++ u32Bytes 44 ++ u32Bytes 0x123456 ++ []) =
    some { firmware := ⟨1, 2, 0x34, 7⟩, fpga_count := 2,
           dice := ⟨1, 0x23, 0x456, 44⟩ } := by
  have h := get_firmware_version_decode.1 0x1234 7 0 2 44 0x123456 []
    (by decide) (by decide) (by decide) (by decide) (by decide) (by decide)
  rw [h]
  decide

theorem readLoopF_zero
    (self : Command → List Nat → Bool → UsbState → Except RusbError (List Nat) × UsbState)
    (cmd : Command) (body : List Nat) (retry : Bool) (idx : Nat) (st : UsbState) :
    readLoopF self cmd body retry idx 0 st = (Except.ok [], st) := rfl

theorem readLoopF_succ
    (self : Command → List Nat → Bool → UsbState → Except RusbError (List Nat) × UsbState)
    (cmd : Command) (body : List Nat) (retry : Bool) (idx : Nat) (n : Nat) (st : UsbState) :
    readLoopF self cmd body retry idx (n + 1) st =
      (let (r, st) := popRead st
       match r with
       | .err .Pipe =>
         readLoopF self cmd body retry idx n (pushSleep (sleepTime st) st)
       | .err e => (Except.error e, st)
       | .bytes data =>
         if data.length < 16 then (Except.error .Pipe, st)
         else
           let response := data.drop 16
           let response_command_index := readU16At data 6
           if response_command_index ≠ idx then
             if !retry then
               match self .ResetCommandIndex [] true st with
               | (Except.error e, st) => (Except.error e, st)
               | (Except.ok _, st) => self cmd body true st
             else (Except.error .Other, st)
           else (Except.ok response, st)) := rfl

theorem performRequestF_zero (cmd : Command) (body : List Nat) (retry : Bool) (st : UsbState) :
    performRequestF 0 cmd body retry st = (Except.error .Other, st) := rfl

theorem performRequestF_succ (fuel : Nat) (cmd : Command) (body : List Nat) (retry : Bool)
    (st : UsbState) :
    performRequestF (fuel + 1) cmd body retry st =
      (let pre : Except RusbError Unit × UsbState :=
        if cmd = .ResetCommandIndex then (Except.ok (), { st with counter := 0 })
        else if st.counter = 65535 then
          match performRequestF fuel .ResetCommandIndex [] false st with
          | (Except.error e, st) => (Except.error e, st)
          | (Except.ok _, st) => (Except.ok (), { st with counter := st.counter + 1 })
        else (Except.ok (), { st with counter := st.counter + 1 })
      match pre with
      | (Except.error e, st) => (Except.error e, st)
      | (Except.ok _, st) =>
        let command_index := st.counter
        let st := pushWrite (buildFrame cmd body command_index) st
        let st := pushSleep (sleepTime st) st
        readLoopF (fun c b r s => performRequestF fuel c b r s) cmd body retry command_index 20 st) := rfl

theorem readLoopF_writes
    (self : Command → List Nat → Bool → UsbState → Except RusbError (List Nat) × UsbState)
    (Hself : ∀ c b r s, ∃ t, (self c b r s).2.writes = s.writes ++ t ∧
      ∀ f ∈ t, f.cmdId ≠ 0 → f.cmdIndex ≠ 0) :
    ∀ (n : Nat) (cmd : Command) (body : List Nat) (retry : Bool) (idx : Nat) (st : UsbState),
      ∃ t, (readLoopF self cmd body retry idx n st).2.writes = st.writes ++ t ∧
        ∀ f ∈ t, f.cmdId ≠ 0 → f.cmdIndex ≠ 0 := by
  intro n
  induction n with
  | zero =>
    intro cmd body retry idx st
    exact ⟨[], by simp [readLoopF_zero]⟩
  | succ n ih =>
    intro cmd body retry idx st
    rw [readLoopF_succ]
    rcases hr : st.reads with _ | ⟨r, rest⟩
    · simp only [popRead, hr]
      exact ⟨[], by simp⟩
    · cases r with
      | err e =>
        cases e with
        | Pipe =>
          simp only [popRead, hr]
          have h2 := ih cmd body retry idx
            (pushSleep (sleepTime { st with reads := rest }) { st with reads := rest })
          simpa [pushSleep] using h2
        | Timeout => simp only [popRead, hr]; exact ⟨[], by simp⟩
        | Other => simp only [popRead, hr]; exact ⟨[], by simp⟩
        | NoDevice => simp only [popRead, hr]; exact ⟨[], by simp⟩
        | Busy => simp only [popRead, hr]; exact ⟨[], by simp⟩
      | bytes data =>
        simp only [popRead, hr]
        by_cases hlen : data.length < 16
        · rw [if_pos hlen]
          exact ⟨[], by simp⟩
        · rw [if_neg hlen]
          by_cases hidx : readU16At data 6 = idx
          · rw [if_neg (fun hh => hh hidx)]
            exact ⟨[], by simp⟩
          · rw [if_pos hidx]
            cases retry with
            | true =>
              rw [if_neg (by decide)]
              exact ⟨[], by simp⟩
            | false =>
              rw [if_pos (by decide)]
              obtain ⟨t1, ht1, hp1⟩ := Hself .ResetCommandIndex [] true { st with reads := rest }
              rcases hs : self .ResetCommandIndex [] true { st with reads := rest } with ⟨res1, st1⟩
              rw [hs] at ht1
              cases res1 with
              | error e =>
                refine ⟨t1, ?_, hp1⟩
                simpa using ht1
              | ok u =>
                obtain ⟨t2, ht2, hp2⟩ := Hself cmd body true st1
                refine ⟨t1 ++ t2, ?_, ?_⟩
                · simp only []
                  rw [ht2]
                  simp only [] at ht1
                  rw [ht1, List.append_assoc]
                · intro f hf
                  rcases List.mem_append.mp hf with h1 | h2
                  · exact hp1 f h1
                  · exact hp2 f h2

theorem performRequestF_succ_reset (fuel : Nat) (body : List Nat) (retry : Bool) (st : UsbState) :
    performRequestF (fuel + 1) .ResetCommandIndex body retry st =
      readLoopF (fun c b r s => performRequestF fuel c b r s) .ResetCommandIndex body retry 0 20
        (pushSleep (sleepTime st)
          (pushWrite (buildFrame .ResetCommandIndex body 0) { st with counter := 0 })) := rfl

theorem performRequestF_succ_normal (fuel : Nat) (cmd : Command) (body : List Nat) (retry : Bool)
    (st : UsbState) (h1 : cmd ≠ .ResetCommandIndex) (h2 : st.counter ≠ 65535) :
    performRequestF (fuel + 1) cmd body retry st =
      readLoopF (fun c b r s => performRequestF fuel c b r s) cmd body retry (st.counter + 1) 20
        (pushSleep (sleepTime st)
          (pushWrite (buildFrame cmd body (st.counter + 1))
            { st with counter := st.counter + 1 })) := by
  rw [performRequestF_succ, if_neg h1, if_neg h2]
  rfl

theorem performRequestF_succ_max (fuel : Nat) (cmd : Command) (body : List Nat) (retry : Bool)
    (st : UsbState) (h1 : cmd ≠ .ResetCommandIndex) (h2 : st.counter = 65535) :
    performRequestF (fuel + 1) cmd body retry st =
      (match performRequestF fuel .ResetCommandIndex [] false st with
      | (Except.error e, st2) => (Except.error e, st2)
      | (Except.ok _, st2) =>
        readLoopF (fun c b r s => performRequestF fuel c b r s) cmd body retry (st2.counter + 1) 20
          (pushSleep (sleepTime st2)
            (pushWrite (buildFrame cmd body (st2.counter + 1))
              { st2 with counter := st2.counter + 1 }))) := by
  rw [performRequestF_succ, if_neg h1, if_pos h2]
  rcases hsub : performRequestF fuel .ResetCommandIndex [] false st with ⟨res, st2⟩
  cases res <;> rfl

theorem performRequestF_writes :
    ∀ (fuel : Nat) (cmd : Command) (body : List Nat) (retry : Bool) (st : UsbState),
      ∃ t, (performRequestF fuel cmd body retry st).2.writes = st.writes ++ t ∧
        ∀ f ∈ t, f.cmdId ≠ 0 → f.cmdIndex ≠ 0 := by
  intro fuel
  induction fuel with
  | zero =>
    intro cmd body retry st
    exact ⟨[], by simp [performRequestF_zero]⟩
  | succ fuel ih =>
    intro cmd body retry st
    by_cases hcmd : cmd = .ResetCommandIndex
    · subst hcmd
      rw [performRequestF_succ_reset]
      obtain ⟨t, ht, hp⟩ := readLoopF_writes _ ih 20 .ResetCommandIndex body retry 0
        (pushSleep (sleepTime st)
          (pushWrite (buildFrame .ResetCommandIndex body 0) { st with counter := 0 }))
      refine ⟨buildFrame .ResetCommandIndex body 0 :: t, ?_, ?_⟩
      · rw [ht]
        simp [pushSleep, pushWrite]
      · intro f hf
        rcases List.mem_cons.mp hf with h1 | h2
        · subst h1
          intro hne
          exact absurd rfl hne
        · exact hp f h2
    · by_cases hctr : st.counter = 65535
      · rw [performRequestF_succ_max fuel cmd body retry st hcmd hctr]
        obtain ⟨t0, ht0, hp0⟩ := ih .ResetCommandIndex [] false st
        rcases hsub : performRequestF fuel .ResetCommandIndex [] false st with ⟨res, st2⟩
        rw [hsub] at ht0
        cases res with
        | error e =>
          exact ⟨t0, ht0, hp0⟩
        | ok u =>
          obtain ⟨t1, ht1, hp1⟩ := readLoopF_writes _ ih 20 cmd body retry (st2.counter + 1)
            (pushSleep (sleepTime st2)
              (pushWrite (buildFrame cmd body (st2.counter + 1))
                { st2 with counter := st2.counter + 1 }))
          refine ⟨t0 ++ buildFrame cmd body (st2.counter + 1) :: t1, ?_, ?_⟩
          · rw [ht1]
            simp only [pushSleep, pushWrite] at ht0 ⊢
            rw [ht0]
            simp [List.append_assoc]
          · intro f hf
            rcases List.mem_append.mp hf with h1 | h2
            · exact hp0 f h1
            · rcases List.mem_cons.mp h2 with h3 | h4
              · subst h3
                intro _
                simp [buildFrame]
              · exact hp1 f h4
      · rw [performRequestF_succ_normal fuel cmd body retry st hcmd hctr]
        obtain ⟨t, ht, hp⟩ := readLoopF_writes _ ih 20 cmd body retry (st.counter + 1)
          (pushSleep (sleepTime st)
            (pushWrite (buildFrame cmd body (st.counter + 1))
              { st with counter := st.counter + 1 }))
        refine ⟨buildFrame cmd body (st.counter + 1) :: t, ?_, ?_⟩
        · rw [ht]
          simp [pushSleep, pushWrite]
        · intro f hf
          rcases List.mem_cons.mp hf with h1 | h2
          · subst h1
            intro _
            simp [buildFrame]
          · exact hp f h2

theorem readLoopF_first_bytes
    (self : Command → List Nat → Bool → UsbState → Except RusbError (List Nat) × UsbState)
    (cmd : Command) (body : List Nat) (retry : Bool) (idx n : Nat) (st : UsbState)
    (bs : List Nat) (rest : List ReadResult)
    (hreads : st.reads = .bytes bs :: rest) (hlen : ¬ bs.length < 16) :
    readLoopF self cmd body retry idx (n + 1) st =
      (if readU16At bs 6 ≠ idx then
        if !retry then
          match self .ResetCommandIndex [] true { st with reads := rest } with
          | (Except.error e, st) => (Except.error e, st)
          | (Except.ok _, st) => self cmd body true st
        else (Except.error .Other, { st with reads := rest })
      else (Except.ok (bs.drop 16), { st with reads := rest })) := by
  rw [readLoopF_succ]
  simp only [popRead, hreads]
  rw [if_neg hlen]

theorem performRequestF_reset_fast (fuel : Nat) (body : List Nat) (retry : Bool)
    (st : UsbState) (bs : List Nat) (rest : List ReadResult)
    (hreads : st.reads = .bytes bs :: rest) (hlen : ¬ bs.length < 16)
    (hidx : readU16At bs 6 = 0) :
    performRequestF (fuel + 1) .ResetCommandIndex body retry st =
      (Except.ok (bs.drop 16),
        { st with
            counter := 0,
            reads := rest,
            writes := st.writes ++ [buildFrame .ResetCommandIndex body 0],
            sleeps := st.sleeps ++ [sleepTime st] }) := by
  rw [performRequestF_succ_reset]
  have h20 : (20 : Nat) = 19 + 1 := rfl
  rw [h20, readLoopF_first_bytes _ _ _ _ _ _ _ bs rest (by simp [pushSleep, pushWrite, hreads]) hlen]
  rw [if_neg (fun hh => hh hidx)]
  simp [pushSleep, pushWrite, sleepTime]

theorem performRequestF_normal_fast (fuel : Nat) (cmd : Command) (body : List Nat)
    (retry : Bool) (st : UsbState) (bs : List Nat) (rest : List ReadResult)
    (h1 : cmd ≠ .ResetCommandIndex) (h2 : st.counter ≠ 65535)
    (hreads : st.reads = .bytes bs :: rest) (hlen : ¬ bs.length < 16)
    (hidx : readU16At bs 6 = st.counter + 1) :
    performRequestF (fuel + 1) cmd body retry st =
      (Except.ok (bs.drop 16),
        { st with
            counter := st.counter + 1,
            reads := rest,
            writes := st.writes ++ [buildFrame cmd body (st.counter + 1)],
            sleeps := st.sleeps ++ [sleepTime st] }) := by
  rw [performRequestF_succ_normal fuel cmd body retry st h1 h2]
  have h20 : (20 : Nat) = 19 + 1 := rfl
  rw [h20, readLoopF_first_bytes _ _ _ _ _ _ _ bs rest (by simp [pushSleep, pushWrite, hreads]) hlen]
  rw [if_neg (fun hh => hh hidx)]
  simp [pushSleep, pushWrite, sleepTime]

theorem performRequestF_mismatch_retry (fuel : Nat) (cmd : Command) (body : List Nat)
    (st : UsbState) (bs : List Nat) (rest : List ReadResult)
    (h1 : cmd ≠ .ResetCommandIndex) (h2 : st.counter ≠ 65535)
    (hreads : st.reads = .bytes bs :: rest) (hlen : ¬ bs.length < 16)
    (hidx : readU16At bs 6 ≠ st.counter + 1) :
    performRequestF (fuel + 1) cmd body true st =
      (Except.error .Other,
        { st with
            counter := st.counter + 1,
            reads := rest,
            writes := st.writes ++ [buildFrame cmd body (st.counter + 1)],
            sleeps := st.sleeps ++ [sleepTime st] }) := by
  rw [performRequestF_succ_normal fuel cmd body true st h1 h2]
  have h20 : (20 : Nat) = 19 + 1 := rfl
  rw [h20, readLoopF_first_bytes _ _ _ _ _ _ _ bs rest (by simp [pushSleep, pushWrite, hreads]) hlen]
  rw [if_pos (by simpa [pushSleep, pushWrite] using hidx)]
  rw [if_neg (by decide)]
  simp [pushSleep, pushWrite, sleepTime]

theorem performRequestF_mismatch_resync (fuel : Nat) (cmd : Command) (body : List Nat)
    (st : UsbState) (bs : List Nat) (rest : List ReadResult)
    (h1 : cmd ≠ .ResetCommandIndex) (h2 : st.counter ≠ 65535)
    (hreads : st.reads = .bytes bs :: rest) (hlen : ¬ bs.length < 16)
    (hidx : readU16At bs 6 ≠ st.counter + 1) :
    performRequestF (fuel + 1) cmd body false st =
      (match performRequestF fuel .ResetCommandIndex [] true
        { st with
            counter := st.counter + 1,
            reads := rest,
            writes := st.writes ++ [buildFrame cmd body (st.counter + 1)],
            sleeps := st.sleeps ++ [sleepTime st] } with
      | (Except.error e, st2) => (Except.error e, st2)
      | (Except.ok _, st2) => performRequestF fuel cmd body true st2) := by
  rw [performRequestF_succ_normal fuel cmd body false st h1 h2]
  have h20 : (20 : Nat) = 19 + 1 := rfl
  rw [h20, readLoopF_first_bytes _ _ _ _ _ _ _ bs rest (by simp [pushSleep, pushWrite, hreads]) hlen]
  rw [if_pos (by simpa [pushSleep, pushWrite] using hidx)]
  rw [if_pos (by decide)]
  simp [pushSleep, pushWrite, sleepTime]

theorem readLoopF_reset_counter
    (self : Command → List Nat → Bool → UsbState → Except RusbError (List Nat) × UsbState)
    (Hself : ∀ b r s, s.counter = 0 → (self .ResetCommandIndex b r s).2.counter = 0) :
    ∀ (n : Nat) (body : List Nat) (retry : Bool) (idx : Nat) (st : UsbState),
      st.counter = 0 →
      (readLoopF self .ResetCommandIndex body retry idx n st).2.counter = 0 := by
  intro n
  induction n with
  | zero =>
    intro body retry idx st hc
    simpa [readLoopF_zero] using hc
  | succ n ih =>
    intro body retry idx st hc
    rw [readLoopF_succ]
    rcases hr : st.reads with _ | ⟨r, rest⟩
    · simpa [popRead, hr] using hc
    · cases r with
      | err e =>
        cases e with
        | Pipe =>
          simp only [popRead, hr]
          exact ih body retry idx _ (by simpa [pushSleep] using hc)
        | Timeout => simpa [popRead, hr] using hc
        | Other => simpa [popRead, hr] using hc
        | NoDevice => simpa [popRead, hr] using hc
        | Busy => simpa [popRead, hr] using hc
      | bytes data =>
        simp only [popRead, hr]
        by_cases hlen : data.length < 16
        · rw [if_pos hlen]
          simpa using hc
        · rw [if_neg hlen]
          by_cases hidx : readU16At data 6 = idx
          · rw [if_neg (fun hh => hh hidx)]
            simpa using hc
          · rw [if_pos hidx]
            cases retry with
            | true =>
              rw [if_neg (by decide)]
              simpa using hc
            | false =>
              rw [if_pos (by decide)]
              have hc1 : ({ st with reads := rest } : UsbState).counter = 0 := by simpa using hc
              have h1 := Hself [] true { st with reads := rest } hc1
              rcases hs : self .ResetCommandIndex [] true { st with reads := rest } with ⟨res1, st1⟩
              rw [hs] at h1
              cases res1 with
              | error e => simpa using h1
              | ok u => exact Hself body true st1 h1

theorem performRequestF_reset_counter :
    ∀ (fuel : Nat) (body : List Nat) (retry : Bool) (st : UsbState),
      st.counter = 0 →
      (performRequestF fuel .ResetCommandIndex body retry st).2.counter = 0 := by
  intro fuel
  induction fuel with
  | zero =>
    intro body retry st hc
    simpa [performRequestF_zero] using hc
  | succ fuel ih =>
    intro body retry st _
    rw [performRequestF_succ_reset]
    refine readLoopF_reset_counter _ ?_ 20 body retry 0 _ (by simp [pushSleep, pushWrite])
    intro b r s hs
    exact ih b r s hs

theorem performRequest_reset_counter (body : List Nat) (retry : Bool) (st : UsbState) :
    (performRequest .ResetCommandIndex body retry st).2.counter = 0 := by
  show (performRequestF 5 .ResetCommandIndex body retry st).2.counter = 0
  rw [performRequestF_succ_reset]
  refine readLoopF_reset_counter _ ?_ 20 body retry 0 _ (by simp [pushSleep, pushWrite])
  intro b r s hs
  exact performRequestF_reset_counter 4 b r s hs

theorem performRequestF_max_fast (fuel : Nat) (cmd : Command) (body : List Nat)
    (retry : Bool) (st : UsbState) (bs : List Nat) (rest : List ReadResult)
    (h1 : cmd ≠ .ResetCommandIndex) (h2 : st.counter = 65535)
    (hreads : st.reads = .bytes bs :: rest) (hlen : ¬ bs.length < 16)
    (hidx : readU16At bs 6 = 0) :
    performRequestF (fuel + 2) cmd body retry st =
      readLoopF (fun c b r s => performRequestF (fuel + 1) c b r s) cmd body retry 1 20
        { st with
            counter := 1,
            reads := rest,
            writes := (st.writes ++ [buildFrame .ResetCommandIndex [] 0])
              ++ [buildFrame cmd body 1],
            sleeps := (st.sleeps ++ [sleepTime st]) ++ [sleepTime st] } := by
  rw [show fuel + 2 = (fuel + 1) + 1 from rfl,
    performRequestF_succ_max (fuel + 1) cmd body retry st h1 h2]
  rw [performRequestF_reset_fast fuel [] false st bs rest hreads hlen hidx]
  simp [pushSleep, pushWrite, sleepTime]

/-- **C1**: In `perform_request`, a `ResetCommandIndex` sets the command
counter to 0 and is transmitted with command index 0 (and the counter is 0
when the call returns, so the next non-reset command transmits index
0 + 1 = 1); a non-reset command with counter below `u16::MAX` is
transmitted directly, with the counter incremented by 1 as its command
index (no reset issued first); a non-reset command at `u16::MAX` first
issues a `ResetCommandIndex` (index 0) and is then transmitted with index
1; every frame `perform_request` adds to the wire whose command id is not
the reset id carries a nonzero command index; and exactly the
`ResetCommandIndex` command has command id 0. -/
theorem perform_request_counter_and_index :
    (∀ (body : List Nat) (retry : Bool) (st : UsbState),
      (∃ t, (performRequest .ResetCommandIndex body retry st).2.writes
          = st.writes ++ buildFrame .ResetCommandIndex body 0 :: t) ∧
      (performRequest .ResetCommandIndex body retry st).2.counter = 0) ∧
    (∀ (cmd : Command) (body : List Nat) (retry : Bool) (st : UsbState),
      cmd ≠ .ResetCommandIndex → st.counter ≠ 65535 →
      ∃ t, (performRequest cmd body retry st).2.writes
          = st.writes ++ buildFrame cmd body (st.counter + 1) :: t) ∧
    (∀ (cmd : Command) (body : List Nat) (retry : Bool) (st : UsbState) (bs : List Nat)
      (rest : List ReadResult),
      cmd ≠ .ResetCommandIndex → st.counter = 65535 →
      st.reads = .bytes bs :: rest → ¬ bs.length < 16 → readU16At bs 6 = 0 →
      ∃ t, (performRequest cmd body retry st).2.writes
          = st.writes ++ buildFrame .ResetCommandIndex [] 0 ::
              buildFrame cmd body 1 :: t) ∧
    (∀ (cmd : Command) (body : List Nat) (retry : Bool) (st : UsbState) (f : Frame),
      f ∈ (performRequest cmd body retry st).2.writes → f ∉ st.writes →
      f.cmdId ≠ 0 → f.cmdIndex ≠ 0) ∧
    (∀ cmd : Command, cmd ≠ .ResetCommandIndex → cmd.command_id ≠ 0) ∧
    Command.command_id .ResetCommandIndex = 0 := by
  refine ⟨?_, ?_, ?_, ?_, ?_, rfl⟩
  · intro body retry st
    constructor
    · have heq : performRequest .ResetCommandIndex body retry st
          = performRequestF (4 + 1) .ResetCommandIndex body retry st := rfl
      rw [heq, performRequestF_succ_reset]
      obtain ⟨t, ht, _⟩ := readLoopF_writes _ (performRequestF_writes 4) 20
        .ResetCommandIndex body retry 0
        (pushSleep (sleepTime st)
          (pushWrite (buildFrame .ResetCommandIndex body 0) { st with counter := 0 }))
      refine ⟨t, ?_⟩
      rw [ht]
      simp [pushSleep, pushWrite]
    · exact performRequest_reset_counter body retry st
  · intro cmd body retry st h1 h2
    have heq : performRequest cmd body retry st
        = performRequestF (4 + 1) cmd body retry st := rfl
    rw [heq, performRequestF_succ_normal 4 cmd body retry st h1 h2]
    obtain ⟨t, ht, _⟩ := readLoopF_writes _ (performRequestF_writes 4) 20
      cmd body retry (st.counter + 1)
      (pushSleep (sleepTime st)
        (pushWrite (buildFrame cmd body (st.counter + 1)) { st with counter := st.counter + 1 }))
    refine ⟨t, ?_⟩
    rw [ht]
    simp [pushSleep, pushWrite]
  · intro cmd body retry st bs rest h1 h2 hreads hlen hidx
    have heq : performRequest cmd body retry st
        = performRequestF (3 + 2) cmd body retry st := rfl
    rw [heq, performRequestF_max_fast 3 cmd body retry st bs rest h1 h2 hreads hlen hidx]
    obtain ⟨t, ht, _⟩ := readLoopF_writes _ (performRequestF_writes 4) 20 cmd body retry 1
      { st with
          counter := 1,
          reads := rest,
          writes := (st.writes ++ [buildFrame .ResetCommandIndex [] 0])
            ++ [buildFrame cmd body 1],
          sleeps := (st.sleeps ++ [sleepTime st]) ++ [sleepTime st] }
    refine ⟨t, ?_⟩
    rw [ht]
    simp [List.append_assoc]
  · intro cmd body retry st f hmem hnot
    obtain ⟨t, ht, hp⟩ := performRequestF_writes 5 cmd body retry st
    rw [show (performRequest cmd body retry st) = performRequestF 5 cmd body retry st from rfl,
      ht] at hmem
    rcases List.mem_append.mp hmem with h1 | h2
    · exact absurd h1 hnot
    · exact hp f h2
  · intro cmd hne
    cases cmd
    case ResetCommandIndex => exact absurd rfl hne
    all_goals (simp only [Command.command_id]; omega)

/-- **C2**: In `perform_request`, on a well-formed response (≥ 16 bytes):
if the response's command index matches the request's, the body after the
header is returned with no resynchronisation and no further writes; if it
mismatches on a call whose retry flag is set, the call fails with the USB
`Other` error having written only its own frame (no recursion); if it
mismatches on a first attempt, exactly one `ResetCommandIndex` (with the
retry flag set) is issued and the original command retried exactly once —
on a clean resync the wire carries exactly the original frame, one reset
frame with index 0, and the retried frame with index 1, and the retried
command's body is returned. -/
theorem perform_request_resync_retry :
    ∀ (cmd : Command) (body : List Nat) (st : UsbState) (bs : List Nat)
      (rest : List ReadResult),
      cmd ≠ .ResetCommandIndex → st.counter ≠ 65535 →
      st.reads = .bytes bs :: rest → ¬ bs.length < 16 →
      ((readU16At bs 6 = st.counter + 1 → ∀ retry,
        (performRequest cmd body retry st).1 = Except.ok (bs.drop 16) ∧
        (performRequest cmd body retry st).2.writes
          = st.writes ++ [buildFrame cmd body (st.counter + 1)] ∧
        (performRequest cmd body retry st).2.reads = rest) ∧
      (readU16At bs 6 ≠ st.counter + 1 →
        (performRequest cmd body true st).1 = Except.error .Other ∧
        (performRequest cmd body true st).2.writes
          = st.writes ++ [buildFrame cmd body (st.counter + 1)]) ∧
      (readU16At bs 6 ≠ st.counter + 1 →
        ∀ (bs2 bs3 : List Nat) (rest3 : List ReadResult),
        rest = .bytes bs2 :: .bytes bs3 :: rest3 →
        ¬ bs2.length < 16 → readU16At bs2 6 = 0 →
        ¬ bs3.length < 16 → readU16At bs3 6 = 1 →
        (performRequest cmd body false st).1 = Except.ok (bs3.drop 16) ∧
        (performRequest cmd body false st).2.writes
          = st.writes ++ [buildFrame cmd body (st.counter + 1),
              buildFrame .ResetCommandIndex [] 0, buildFrame cmd body 1] ∧
        (performRequest cmd body false st).2.counter = 1 ∧
        (performRequest cmd body false st).2.reads = rest3)) := by
  intro cmd body st bs rest h1 h2 hreads hlen
  refine ⟨?_, ?_, ?_⟩
  · intro hidx retry
    have heq : performRequest cmd body retry st
        = performRequestF (4 + 1) cmd body retry st := rfl
    rw [heq, performRequestF_normal_fast 4 cmd body retry st bs rest h1 h2 hreads hlen hidx]
    simp
  · intro hidx
    have heq : performRequest cmd body true st
        = performRequestF (4 + 1) cmd body true st := rfl
    rw [heq, performRequestF_mismatch_retry 4 cmd body st bs rest h1 h2 hreads hlen hidx]
    simp
  · intro hidx bs2 bs3 rest3 hrest hlen2 hidx2 hlen3 hidx3
    subst hrest
    have heq : performRequest cmd body false st
        = performRequestF (4 + 1) cmd body false st := rfl
    rw [heq, performRequestF_mismatch_resync 4 cmd body st bs _ h1 h2 hreads hlen hidx]
    have hsub : performRequestF 4 .ResetCommandIndex [] true
        { st with
            counter := st.counter + 1,
            reads := ReadResult.bytes bs2 :: ReadResult.bytes bs3 :: rest3,
            writes := st.writes ++ [buildFrame cmd body (st.counter + 1)],
            sleeps := st.sleeps ++ [sleepTime st] }
        = (Except.ok (bs2.drop 16),
          { st with
              counter := 0,
              reads := ReadResult.bytes bs3 :: rest3,
              writes := (st.writes ++ [buildFrame cmd body (st.counter + 1)])
                ++ [buildFrame .ResetCommandIndex [] 0],
              sleeps := (st.sleeps ++ [sleepTime st]) ++ [sleepTime st] }) :=
      performRequestF_reset_fast 3 [] true _ bs2 (ReadResult.bytes bs3 :: rest3)
        rfl hlen2 hidx2
    simp only [hsub]
    have hsub2 : performRequestF 4 cmd body true
        { st with
            counter := 0,
            reads := ReadResult.bytes bs3 :: rest3,
            writes := (st.writes ++ [buildFrame cmd body (st.counter + 1)])
              ++ [buildFrame .ResetCommandIndex [] 0],
            sleeps := (st.sleeps ++ [sleepTime st]) ++ [sleepTime st] }
        = (Except.ok (bs3.drop 16),
          { st with
              counter := 1,
              reads := rest3,
              writes := ((st.writes ++ [buildFrame cmd body (st.counter + 1)])
                ++ [buildFrame .ResetCommandIndex [] 0]) ++ [buildFrame cmd body 1],
              sleeps := ((st.sleeps ++ [sleepTime st]) ++ [sleepTime st])
                ++ [sleepTime st] }) :=
      performRequestF_normal_fast 3 cmd body true _ bs3 rest3 h1
        (by simp) rfl hlen3 (by simpa using hidx3)
    simp only [hsub2]
    simp

theorem requestDataGF_succ (fuel : Nat) (cmd : Command) (body : List Nat) (st : UsbState) :
    requestDataGF (fuel + 1) cmd body st =
      (let pre : GOutcome × UsbState :=
        if cmd = .ResetCommandIndex then (.ok [], { st with counter := 0 })
        else
          let step : GOutcome × UsbState :=
            if st.counter < 65535 then requestDataGF fuel .ResetCommandIndex [] st
            else (.ok [], st)
          match step with
          | (.ok _, st) => (.ok [], { st with counter := (st.counter + 1) % 65536 })
          | (out, st) => (out, st)
      match pre with
      | (.ok _, st) =>
        let command_index := st.counter
        let st := pushWrite (buildFrame cmd body command_index) st
        let st := pushSleep 10 st
        let (r, st) := popRead st
        match r with
        | .err e => (.err e, st)
        | .bytes data =>
          if data.length < 16 then (.panicked, st)
          else (.ok (data.drop 16), st)
      | (out, st) => (out, st)) := rfl

theorem requestDataG_reset (body : List Nat) (st : UsbState) (bs : List Nat)
    (rest : List ReadResult)
    (hreads : st.reads = .bytes bs :: rest) (hlen : ¬ bs.length < 16) :
    requestDataG .ResetCommandIndex body st =
      (.ok (bs.drop 16),
        { st with
            counter := 0,
            reads := rest,
            writes := st.writes ++ [buildFrame .ResetCommandIndex body 0],
            sleeps := st.sleeps ++ [10] }) := by
  show requestDataGF (2 + 1) .ResetCommandIndex body st = _
  rw [requestDataGF_succ]
  rw [if_pos rfl]
  simp only [popRead, pushWrite, pushSleep, hreads]
  rw [if_neg hlen]

/-- **C9** (amended): the two framers agree on `ResetCommandIndex`: from
any starting counter both transmit the identical frame (id 0, the body,
index 0), set the counter to 0, and — given an immediate well-formed
response with index 0 — consume one read and return the same body.  For
non-reset commands they diverge (see the counterexample): the legacy
`request_data` issues a `ResetCommandIndex` before every non-reset command
whenever the counter is BELOW `u16::MAX` (so it always transmits index 1)
and never retries nor resynchronises, while `perform_request` resets only
AT `u16::MAX` and transmits index counter + 1. -/
theorem framers_agree_on_reset :
    ∀ (body : List Nat) (retry : Bool) (st : UsbState) (bs : List Nat)
      (rest : List ReadResult),
      st.reads = .bytes bs :: rest → ¬ bs.length < 16 → readU16At bs 6 = 0 →
      toGOutcome (performRequest .ResetCommandIndex body retry st).1
          = (requestDataG .ResetCommandIndex body st).1 ∧
      (performRequest .ResetCommandIndex body retry st).2.counter
          = (requestDataG .ResetCommandIndex body st).2.counter ∧
      (performRequest .ResetCommandIndex body retry st).2.writes
          = (requestDataG .ResetCommandIndex body st).2.writes ∧
      (performRequest .ResetCommandIndex body retry st).2.reads
          = (requestDataG .ResetCommandIndex body st).2.reads := by
  intro body retry st bs rest hreads hlen hidx
  have heq : performRequest .ResetCommandIndex body retry st
      = performRequestF (4 + 1) .ResetCommandIndex body retry st := rfl
  rw [heq, performRequestF_reset_fast 4 body retry st bs rest hreads hlen hidx,
    requestDataG_reset body st bs rest hreads hlen]
  simp [toGOutcome]

/-- Counterexample to **C9**: starting from the same state (counter 5,
identical pending reads), a `GetButtonStates` request makes
`perform_request` transmit a single frame with index 6 and leave the
counter at 6, while the legacy `request_data` first transmits a
`ResetCommandIndex` frame (index 0) and then the command with index 1,
leaving the counter at 1 — different frames, different counter update. -/
theorem framers_not_equivalent_cex :
    (performRequest .GetButtonStates [] false
        { counter := 5, pid := 0x8fe0,
          reads := [.bytes [0, 0, 0, 0, 0, 0, 6, 0, 0, 0, 0, 0, 0, 0, 0, 0],
            .bytes [0, 0, 0, 0, 0, 0, 6, 0, 0, 0, 0, 0, 0, 0, 0, 0]],
          writes := [], sleeps := [] }).2.counter = 6 ∧
    (requestDataG .GetButtonStates []
        { counter := 5, pid := 0x8fe0,
          reads := [.bytes [0, 0, 0, 0, 0, 0, 6, 0, 0, 0, 0, 0, 0, 0, 0, 0],
            .bytes [0, 0, 0, 0, 0, 0, 6, 0, 0, 0, 0, 0, 0, 0, 0, 0]],
          writes := [], sleeps := [] }).2.counter = 1 ∧
    (performRequest .GetButtonStates [] false
        { counter := 5, pid := 0x8fe0,
          reads := [.bytes [0, 0, 0, 0, 0, 0, 6, 0, 0, 0, 0, 0, 0, 0, 0, 0],
            .bytes [0, 0, 0, 0, 0, 0, 6, 0, 0, 0, 0, 0, 0, 0, 0, 0]],
          writes := [], sleeps := [] }).2.writes
      = [buildFrame .GetButtonStates [] 6] ∧
    (requestDataG .GetButtonStates []
        { counter := 5, pid := 0x8fe0,
          reads := [.bytes [0, 0, 0, 0, 0, 0, 6, 0, 0, 0, 0, 0, 0, 0, 0, 0],
            .bytes [0, 0, 0, 0, 0, 0, 6, 0, 0, 0, 0, 0, 0, 0, 0, 0]],
          writes := [], sleeps := [] }).2.writes
      = [buildFrame .ResetCommandIndex [] 0, buildFrame .GetButtonStates [] 1] := by
  refine ⟨rfl, rfl, ?_, ?_⟩ <;> decide

/-- Witness for C1 at a concrete state: from counter 5 a non-reset command
transmits index 6 as its first frame, and a reset leaves the counter 0. -/
theorem perform_request_counter_and_index_witness :
    (performRequest .SetButtonStates [] false
        { counter := 5, pid := 0x8fe0,
          reads := [.bytes [0, 0, 0, 0, 0, 0, 6, 0, 0, 0, 0, 0, 0, 0, 0, 0]],
          writes := [], sleeps := [] }).2.writes.head?
      = some (buildFrame .SetButtonStates [] 6) ∧
    (performRequest .ResetCommandIndex []  false
        { counter := 5, pid := 0x8fe0,
          reads := [.bytes [0, 0, 0, 0, 0, 0, 0, 0, 0, 0, 0, 0, 0, 0, 0, 0]],
          writes := [], sleeps := [] }).2.counter = 0 := by
  constructor
  · obtain ⟨t, ht⟩ := perform_request_counter_and_index.2.1 .SetButtonStates [] false
      { counter := 5, pid := 0x8fe0,
        reads := [.bytes [0, 0, 0, 0, 0, 0, 6, 0, 0, 0, 0, 0, 0, 0, 0, 0]],
        writes := [], sleeps := [] } (by decide) (by decide)
    rw [ht]
    rfl
  · exact (perform_request_counter_and_index.1 [] false
      { counter := 5, pid := 0x8fe0,
        reads := [.bytes [0, 0, 0, 0, 0, 0, 0, 0, 0, 0, 0, 0, 0, 0, 0, 0]],
        writes := [], sleeps := [] }).2

/-- Witness for C2 at concrete states: a matching response returns the
body; a mismatched response on a first attempt resyncs (one reset frame,
one retry) and succeeds; a mismatched response on a retry fails with
`Other`. -/
theorem perform_request_resync_retry_witness :
    (performRequest .SetButtonStates [] false
        { counter := 5, pid := 0x8fe0,
          reads := [.bytes [0, 0, 0, 0, 0, 0, 6, 0, 0, 0, 0, 0, 0, 0, 0, 0]],
          writes := [], sleeps := [] }).1 = Except.ok [] ∧
    (performRequest .SetButtonStates [] false
        { counter := 5, pid := 0x8fe0,
          reads := [.bytes [0, 0, 0, 0, 0, 0, 9, 0, 0, 0, 0, 0, 0, 0, 0, 0],
            .bytes [0, 0, 0, 0, 0, 0, 0, 0, 0, 0, 0, 0, 0, 0, 0, 0],
            .bytes [0, 0, 0, 0, 0, 0, 1, 0, 0, 0, 0, 0, 0, 0, 0, 0]],
          writes := [], sleeps := [] }).2.writes
      = [buildFrame .SetButtonStates [] 6, buildFrame .ResetCommandIndex [] 0,
          buildFrame .SetButtonStates [] 1] ∧
    (performRequest .SetButtonStates [] true
        { counter := 5, pid := 0x8fe0,
          reads := [.bytes [0, 0, 0, 0, 0, 0, 9, 0, 0, 0, 0, 0, 0, 0, 0, 0]],
          writes := [], sleeps := [] }).1 = Except.error .Other := by
  refine ⟨?_, ?_, ?_⟩
  · have h := (perform_request_resync_retry .SetButtonStates []
      { counter := 5, pid := 0x8fe0,
        reads := [.bytes [0, 0, 0, 0, 0, 0, 6, 0, 0, 0, 0, 0, 0, 0, 0, 0]],
        writes := [], sleeps := [] }
      [0, 0, 0, 0, 0, 0, 6, 0, 0, 0, 0, 0, 0, 0, 0, 0] []
      (by decide) (by decide) rfl (by decide)).1 (by decide) false
    exact h.1
  · have h := (perform_request_resync_retry .SetButtonStates []
      { counter := 5, pid := 0x8fe0,
        reads := [.bytes [0, 0, 0, 0, 0, 0, 9, 0, 0, 0, 0, 0, 0, 0, 0, 0],
          .bytes [0, 0, 0, 0, 0, 0, 0, 0, 0, 0, 0, 0, 0, 0, 0, 0],
          .bytes [0, 0, 0, 0, 0, 0, 1, 0, 0, 0, 0, 0, 0, 0, 0, 0]],
        writes := [], sleeps := [] }
      [0, 0, 0, 0, 0, 0, 9, 0, 0, 0, 0, 0, 0, 0, 0, 0]
      [.bytes [0, 0, 0, 0, 0, 0, 0, 0, 0, 0, 0, 0, 0, 0, 0, 0],
        .bytes [0, 0, 0, 0, 0, 0, 1, 0, 0, 0, 0, 0, 0, 0, 0, 0]]
      (by decide) (by decide) rfl (by decide)).2.2 (by decide)
      [0, 0, 0, 0, 0, 0, 0, 0, 0, 0, 0, 0, 0, 0, 0, 0]
      [0, 0, 0, 0, 0, 0, 1, 0, 0, 0, 0, 0, 0, 0, 0, 0] [] rfl
      (by decide) (by decide) (by decide) (by decide)
    exact h.2.1
  · have h := (perform_request_resync_retry .SetButtonStates []
      { counter := 5, pid := 0x8fe0,
        reads := [.bytes [0, 0, 0, 0, 0, 0, 9, 0, 0, 0, 0, 0, 0, 0, 0, 0]],
        writes := [], sleeps := [] }
      [0, 0, 0, 0, 0, 0, 9, 0, 0, 0, 0, 0, 0, 0, 0, 0] []
      (by decide) (by decide) rfl (by decide)).2.1 (by decide)
    exact h.1

/-- Witness for C9's amended theorem at a concrete state. -/
theorem framers_agree_on_reset_witness :
    toGOutcome (performRequest .ResetCommandIndex [1, 2] true
        { counter := 40000, pid := 0x8fe4,
          reads := [.bytes [0, 0, 0, 0, 0, 0, 0, 0, 0, 0, 0, 0, 0, 0, 0, 0]],
          writes := [], sleeps := [] }).1
      = (requestDataG .ResetCommandIndex [1, 2]
        { counter := 40000, pid := 0x8fe4,
          reads := [.bytes [0, 0, 0, 0, 0, 0, 0, 0, 0, 0, 0, 0, 0, 0, 0, 0]],
          writes := [], sleeps := [] }).1 ∧
    (performRequest .ResetCommandIndex [1, 2] true
        { counter := 40000, pid := 0x8fe4,
          reads := [.bytes [0, 0, 0, 0, 0, 0, 0, 0, 0, 0, 0, 0, 0, 0, 0, 0]],
          writes := [], sleeps := [] }).2.writes
      = (requestDataG .ResetCommandIndex [1, 2]
        { counter := 40000, pid := 0x8fe4,
          reads := [.bytes [0, 0, 0, 0, 0, 0, 0, 0, 0, 0, 0, 0, 0, 0, 0, 0]],
          writes := [], sleeps := [] }).2.writes := by
  have h := framers_agree_on_reset [1, 2] true
    { counter := 40000, pid := 0x8fe4,
      reads := [.bytes [0, 0, 0, 0, 0, 0, 0, 0, 0, 0, 0, 0, 0, 0, 0, 0]],
      writes := [], sleeps := [] }
    [0, 0, 0, 0, 0, 0, 0, 0, 0, 0, 0, 0, 0, 0, 0, 0] [] rfl (by decide) (by decide)
  exact ⟨h.1, h.2.2.1⟩

/-- **C3** (the code as written): polling the 1040-byte response read
retries on `Pipe` at most 20 times, sleeping the per-model wait each time
— but because the guard `if i < 20` inside `for i in 0..20` always holds,
the error return for the exhausted loop is dead code: 20 consecutive
`Pipe` results consume all 20 reads, record 21 waits (one post-write, 20
retry waits of 3 ms on a full-size device) and make the call return
`Ok(vec![])`, an empty success, instead of the error the claim (and the
dead branch) prescribe.  A non-`Pipe` error (here `Timeout`) still fails
immediately after a single read. -/
theorem perform_request_pipe_loop_returns_empty_ok :
    (performRequest .GetButtonStates [] false
        { counter := 5, pid := 0x8fe0, reads := List.replicate 20 (.err .Pipe),
          writes := [], sleeps := [] }).1 = Except.ok [] ∧
    (performRequest .GetButtonStates [] false
        { counter := 5, pid := 0x8fe0, reads := List.replicate 20 (.err .Pipe),
          writes := [], sleeps := [] }).2.reads = [] ∧
    (performRequest .GetButtonStates [] false
        { counter := 5, pid := 0x8fe0, reads := List.replicate 20 (.err .Pipe),
          writes := [], sleeps := [] }).2.sleeps = List.replicate 21 3 ∧
    (performRequest .GetButtonStates [] false
        { counter := 5, pid := 0x8fe0,
          reads := [.err .Timeout, .err .Pipe, .err .Pipe],
          writes := [], sleeps := [] }).1 = Except.error .Timeout ∧
    (performRequest .GetButtonStates [] false
        { counter := 5, pid := 0x8fe0,
          reads := [.err .Timeout, .err .Pipe, .err .Pipe],
          writes := [], sleeps := [] }).2.reads.length = 2 := by
  refine ⟨rfl, rfl, by decide, rfl, rfl⟩

end GoXLR
